import Mathlib

/-!
# Text Emotions Reader: voice parameter resolver and realtime handler

A shallow embedding of `Text_Emotions_Reader-main/server.js` and of the
protocol part of its client, `Text_Emotions_Reader-main/public/script.js`.

* JavaScript strings are Lean strings.  The source only tests for and inserts
  the ASCII characters `!`, `.` and `,`, so the code-point view used here and
  JavaScript's code-unit view agree on every operation modelled below.
* JavaScript numbers of the parameter tables are the decimal literals of the
  source, read as rationals; the code never does arithmetic on them.
* An intensity is an integer (the spec's data model); an absent field or
  argument (`undefined`) is `none`.
* A thrown exception is the `error` side of `Except`.
-/

namespace TextEmotions

/-! ## JavaScript string primitives -/

/-- JavaScript `s.endsWith(suffix)`. -/
def endsWith (s suffix : String) : Bool :=
  suffix.data.isSuffixOf s.data

/-- Scan of `String.prototype.replace` for a global pattern that matches the
non-empty literal `pat`: matches are found left to right and do not overlap,
and the replacement text is not scanned again.  The counter is the number of
characters of the current match that are still to be skipped. -/
def replaceGo (pat rep : List Char) : Nat → List Char → List Char
  | _, [] => []
  | skip + 1, _ :: cs => replaceGo pat rep skip cs
  | 0, c :: cs =>
    if pat.isPrefixOf (c :: cs) then rep ++ replaceGo pat rep (pat.length - 1) cs
    else c :: replaceGo pat rep 0 cs

/-- JavaScript `s.replace(/pat/g, rep)` for a literal, non-empty `pat` and a
replacement without `$` patterns. -/
def replaceAll (s pat rep : String) : String :=
  ⟨replaceGo pat.data rep.data 0 s.data⟩

/-! ## Data model -/

/-- The exceptions the modelled code can raise or receive. -/
inductive JSError where
  /-- Property read on `undefined`, or call of a non-function. -/
  | typeError
  /-- Error value handed back by the external speech engine. -/
  | engineError (detail : String)
deriving DecidableEq, Repr

/-- One entry `{ rate, pitch, volume }` of an emotion's intensity table. -/
structure IntensitySettings where
  rate : ℚ
  pitch : ℚ
  volume : ℚ
deriving DecidableEq, Repr

/-- The `base` profile of an emotion. -/
structure BaseSettings where
  rate : ℚ
  pitch : ℚ
  volume : ℚ
  voice : String
deriving DecidableEq, Repr

/-- One value of the `voiceSettings` object: the base profile and the
intensity table, an object keyed by the levels it declares. -/
structure EmotionSettings where
  base : BaseSettings
  intensity : List (Int × IntensitySettings)
deriving DecidableEq, Repr

/-- The object returned by `applyVoiceModulation`. -/
structure VoiceParameters where
  text : String
  rate : ℚ
  pitch : ℚ
  volume : ℚ
  voice : String
  intensity : Int
deriving DecidableEq, Repr

/-- A payload of a `generateVoice` event that can be destructured: each field
may be absent.  A payload that is a number, a string or a boolean is
destructured too, with every field absent; a payload that is `null` or
`undefined` is not, and is the `none` of `onGenerateVoice`. -/
structure GenerationRequest where
  text : Option String
  emotion : Option String
  intensity : Option Int
deriving DecidableEq, Repr

/-- The payload of a `voiceGenerated` event. -/
structure GenerationResult where
  success : Bool
  emotion : String
  intensity : Int
  originalText : String
  modifiedText : String
deriving DecidableEq, Repr

/-- The events the realtime handler emits to the requesting socket. -/
inductive Event where
  | error (message : String)
  | voiceConfig (config : VoiceParameters)
  | voiceGenerated (result : GenerationResult)
deriving DecidableEq, Repr

/-- The external `say.speak(text, voice, rate, callback)`: `none` when the
callback receives no error, `some err` when it receives one (or the call
throws). -/
abbrev SayEngine := String → String → ℚ → Option JSError

/-! ## The tables of `server.js` -/

/-- The `voiceSettings` object literal. -/
def voiceSettings : List (String × EmotionSettings) :=
  [ ("happy",
      { base := { rate := 1.2, pitch := 1.3, volume := 1.0, voice := "Microsoft David Desktop" },
        intensity :=
          [ (1, { rate := 1.0, pitch := 1.1, volume := 0.8 }),
            (2, { rate := 1.1, pitch := 1.2, volume := 0.9 }),
            (3, { rate := 1.2, pitch := 1.3, volume := 1.0 }),
            (4, { rate := 1.3, pitch := 1.4, volume := 1.1 }),
            (5, { rate := 1.4, pitch := 1.5, volume := 1.2 }) ] }),
    ("sad",
      { base := { rate := 0.7, pitch := 0.6, volume := 0.8, voice := "Microsoft David Desktop" },
        intensity :=
          [ (1, { rate := 0.8, pitch := 0.7, volume := 0.9 }),
            (2, { rate := 0.75, pitch := 0.65, volume := 0.85 }),
            (3, { rate := 0.7, pitch := 0.6, volume := 0.8 }),
            (4, { rate := 0.65, pitch := 0.55, volume := 0.75 }),
            (5, { rate := 0.6, pitch := 0.5, volume := 0.7 }) ] }),
    ("shock",
      { base := { rate := 1.8, pitch := 1.6, volume := 1.2, voice := "Microsoft David Desktop" },
        intensity :=
          [ (1, { rate := 1.4, pitch := 1.3, volume := 1.0 }),
            (2, { rate := 1.6, pitch := 1.4, volume := 1.1 }),
            (3, { rate := 1.8, pitch := 1.6, volume := 1.2 }),
            (4, { rate := 2.0, pitch := 1.8, volume := 1.3 }),
            (5, { rate := 2.2, pitch := 2.0, volume := 1.4 }) ] }),
    ("angry",
      { base := { rate := 1.4, pitch := 1.5, volume := 1.1, voice := "Microsoft David Desktop" },
        intensity :=
          [ (1, { rate := 1.2, pitch := 1.3, volume := 1.0 }),
            (2, { rate := 1.3, pitch := 1.4, volume := 1.05 }),
            (3, { rate := 1.4, pitch := 1.5, volume := 1.1 }),
            (4, { rate := 1.5, pitch := 1.6, volume := 1.15 }),
            (5, { rate := 1.6, pitch := 1.7, volume := 1.2 }) ] }),
    ("sleepy",
      { base := { rate := 0.5, pitch := 0.7, volume := 0.6, voice := "Microsoft David Desktop" },
        intensity :=
          [ (1, { rate := 0.7, pitch := 0.8, volume := 0.8 }),
            (2, { rate := 0.6, pitch := 0.75, volume := 0.7 }),
            (3, { rate := 0.5, pitch := 0.7, volume := 0.6 }),
            (4, { rate := 0.4, pitch := 0.65, volume := 0.5 }),
            (5, { rate := 0.3, pitch := 0.6, volume := 0.4 }) ] }),
    ("thoughtful",
      { base := { rate := 0.9, pitch := 0.9, volume := 0.9, voice := "Microsoft David Desktop" },
        intensity :=
          [ (1, { rate := 1.0, pitch := 1.0, volume := 1.0 }),
            (2, { rate := 0.95, pitch := 0.95, volume := 0.95 }),
            (3, { rate := 0.9, pitch := 0.9, volume := 0.9 }),
            (4, { rate := 0.85, pitch := 0.85, volume := 0.85 }),
            (5, { rate := 0.8, pitch := 0.8, volume := 0.8 }) ] }) ]

/-- The server-recognised emotions, `Object.keys(voiceSettings)` (the answer of
`GET /api/emotions`). -/
def recognisedEmotions : List String :=
  voiceSettings.map Prod.fst

/-- The function `emotionModifications.happy`. -/
def happy (text : String) (_intensity : Int) : String :=
  let modifiedText := if !endsWith text "!" then text ++ "!" else text
  replaceAll (replaceAll modifiedText "." "!") "," "!"

/-- The function `emotionModifications.sad`. -/
def sad (text : String) (_intensity : Int) : String :=
  let modifiedText := if !endsWith text "..." then text ++ "..." else text
  replaceAll (replaceAll modifiedText "!" "...") "." "..."

/-- The function `emotionModifications.shock`. -/
def shock (text : String) (_intensity : Int) : String :=
  "Oh my! " ++ text ++ "! Wow!"

/-- The function `emotionModifications.angry`. -/
def angry (text : String) (_intensity : Int) : String :=
  "Listen! " ++ text ++ "! Now!"

/-- The function `emotionModifications.sleepy`. -/
def sleepy (text : String) (_intensity : Int) : String :=
  "Yawn... " ++ text ++ "... zzz..."

/-- The function `emotionModifications.thoughtful`. -/
def thoughtful (text : String) (_intensity : Int) : String :=
  "Hmm... " ++ text ++ "... I think..."

/-- The `emotionModifications` object literal. -/
def emotionModifications : List (String × (String → Int → String)) :=
  [ ("happy", happy), ("sad", sad), ("shock", shock), ("angry", angry),
    ("sleepy", sleepy), ("thoughtful", thoughtful) ]

/-! ## The resolver -/

/-- The expression `settings.intensity[intensity] || settings.intensity[3]`:
every entry is an object, hence truthy, so the right operand is taken exactly
when the key is missing from the table. -/
def intensityEntry (settings : EmotionSettings) (intensity : Int) :
    Option IntensitySettings :=
  match settings.intensity.lookup intensity with
  | some entry => some entry
  | none => settings.intensity.lookup 3

/-- The function `applyVoiceModulation(text, emotion, intensity = 3)`.  The
argument `none` is an omitted (`undefined`) intensity, which the default
parameter turns into 3.  Reading `settings.intensity` on a missing emotion,
calling a missing transformation and reading `.rate` on a missing entry each
throw a `TypeError`; so does an emotion that names an inherited property such
as `constructor`, whose value has no `intensity` table. -/
def applyVoiceModulation (text emotion : String) (intensityArg : Option Int) :
    Except JSError VoiceParameters :=
  let intensity := intensityArg.getD 3
  match voiceSettings.lookup emotion with
  | none => .error .typeError
  | some settings =>
    let intensitySettings := intensityEntry settings intensity
    match emotionModifications.lookup emotion with
    | none => .error .typeError
    | some modify =>
      let modifiedText := modify text intensity
      match intensitySettings with
      | none => .error .typeError
      | some entry =>
        .ok { text := modifiedText
              rate := entry.rate
              pitch := entry.pitch
              volume := entry.volume
              voice := settings.base.voice
              intensity := intensity }

/-! ## Speech and the realtime handler -/

/-- The text `speakWithEmotion` hands to the engine: the `switch (emotion)`
that spaces out the punctuation of `voiceConfig.text`. -/
def finalText (voiceConfig : VoiceParameters) (emotion : String) : String :=
  if emotion = "happy" then replaceAll voiceConfig.text "!" " ! "
  else if emotion = "sad" then replaceAll voiceConfig.text "..." " ... "
  else if emotion = "shock" then replaceAll voiceConfig.text "!" " !!! "
  else if emotion = "angry" then replaceAll voiceConfig.text "!" " ! "
  else if emotion = "sleepy" then replaceAll voiceConfig.text "..." " ... "
  else if emotion = "thoughtful" then replaceAll voiceConfig.text "..." " ... "
  else voiceConfig.text

/-- The function `speakWithEmotion(voiceConfig, emotion)`: the settled promise,
`ok` when it resolves and `error` when it rejects.  With server speech disabled
it resolves without calling the engine. -/
def speakWithEmotion (isServerTTSDisabled : Bool) (say : SayEngine)
    (voiceConfig : VoiceParameters) (emotion : String) : Except JSError Unit :=
  if isServerTTSDisabled then .ok ()
  else
    match say (finalText voiceConfig emotion) voiceConfig.voice voiceConfig.rate with
    | some err => .error err
    | none => .ok ()

/-- JavaScript truthiness of a string-valued field: `undefined` and the empty
string are falsy.  Returns the value when it is truthy. -/
def truthy : Option String → Option String
  | none => none
  | some s => if s = "" then none else some s

/-- The `try` block of the `generateVoice` socket handler once its first
statement has destructured the payload `data`: the events emitted by it, in
order, and whether it completed or threw. -/
def generateVoiceTry (isServerTTSDisabled : Bool) (say : SayEngine)
    (data : GenerationRequest) : List Event × Except JSError Unit :=
  let intensity := data.intensity.getD 3
  match truthy data.text, truthy data.emotion with
  | some text, some emotion =>
    match applyVoiceModulation text emotion (some intensity) with
    | .error e => ([], .error e)
    | .ok voiceConfig =>
      match speakWithEmotion isServerTTSDisabled say voiceConfig emotion with
      | .error e => ([.voiceConfig voiceConfig], .error e)
      | .ok _ =>
        ([.voiceConfig voiceConfig,
          .voiceGenerated
            { success := true
              emotion := emotion
              intensity := intensity
              originalText := text
              modifiedText := voiceConfig.text }], .ok ())
  | _, _ => ([.error "Text and emotion are required"], .ok ())

/-- The `generateVoice` socket handler on a payload that can be destructured:
the events it emits, in order.  The `catch` clause adds the generic error event
to whatever the `try` block had emitted before it threw. -/
def generateVoice (isServerTTSDisabled : Bool) (say : SayEngine)
    (data : GenerationRequest) : List Event :=
  match generateVoiceTry isServerTTSDisabled say data with
  | (emitted, .ok _) => emitted
  | (emitted, .error _) => emitted ++ [.error "Failed to generate voice"]

/-- The whole `try` block of the `generateVoice` socket handler, on the payload
as it arrives: `none` is a payload that is `null` or `undefined` (an event sent
without argument), on which the destructuring
`const { text, emotion, intensity = 3 } = data` throws a `TypeError` before
anything is emitted. -/
def onGenerateVoiceTry (isServerTTSDisabled : Bool) (say : SayEngine) :
    Option GenerationRequest → List Event × Except JSError Unit
  | none => ([], .error .typeError)
  | some data => generateVoiceTry isServerTTSDisabled say data

/-- The `generateVoice` socket handler on the payload as it arrives: the events
it emits, in order. -/
def onGenerateVoice (isServerTTSDisabled : Bool) (say : SayEngine)
    (payload : Option GenerationRequest) : List Event :=
  match onGenerateVoiceTry isServerTTSDisabled say payload with
  | (emitted, .ok _) => emitted
  | (emitted, .error _) => emitted ++ [.error "Failed to generate voice"]

/-- Terminal events of one request: the result event and the error event. -/
def Event.isTerminal : Event → Bool
  | .error _ => true
  | .voiceConfig _ => false
  | .voiceGenerated _ => true

/-- Whether an event is the result event `voiceGenerated`. -/
def Event.isResult : Event → Bool
  | .voiceGenerated _ => true
  | _ => false

/-- Whether an event is an `error` event. -/
def Event.isError : Event → Bool
  | .error _ => true
  | _ => false

/-- Whether an event is the configuration event `voiceConfig`. -/
def Event.isConfig : Event → Bool
  | .voiceConfig _ => true
  | _ => false

/-- The happy transformation in the words of the specification: `!` is
appended unless the text already ends with `!`, and every `.` and every `,` of
the result is replaced by `!`. -/
def happySpec (text : String) : String :=
  let appended := if endsWith text "!" then text else text ++ "!"
  ⟨appended.data.map (fun ch => if ch = '.' ∨ ch = ',' then '!' else ch)⟩

/-- The sad transformation in the words of the specification: `...` is
appended unless the text already ends with `...`, and every `!` and every `.`
of the result is replaced by `...`, each character once and all at the same
time. -/
def sadSpec (text : String) : String :=
  let appended := if endsWith text "..." then text else text ++ "..."
  ⟨appended.data.flatMap
    (fun ch => if ch = '!' ∨ ch = '.' then ['.', '.', '.'] else [ch])⟩

/-! ## The one-shot form `POST /api/speak` -/

/-- The JSON body of an answer of `POST /api/speak`: `{ error: message }` or
the result object. -/
inductive ResponseBody where
  | error (message : String)
  | result (result : GenerationResult)
deriving DecidableEq, Repr

/-- An HTTP answer: the status code and the JSON body. -/
structure HttpResponse where
  status : Nat
  body : ResponseBody
deriving DecidableEq, Repr

/-- The `try` block of the `POST /api/speak` handler: the answer it sends, or
the exception it throws before sending one.  The method `res.json` answers
with status 200 unless `res.status` was called first. -/
def apiSpeakTry (isServerTTSDisabled : Bool) (say : SayEngine)
    (body : GenerationRequest) : Except JSError HttpResponse :=
  let intensity := body.intensity.getD 3
  match truthy body.text, truthy body.emotion with
  | some text, some emotion =>
    match applyVoiceModulation text emotion (some intensity) with
    | .error e => .error e
    | .ok voiceConfig =>
      match speakWithEmotion isServerTTSDisabled say voiceConfig emotion with
      | .error e => .error e
      | .ok _ =>
        .ok { status := 200
              body := .result
                { success := true
                  emotion := emotion
                  intensity := intensity
                  originalText := text
                  modifiedText := voiceConfig.text } }
  | _, _ => .ok { status := 400, body := .error "Text and emotion are required" }

/-- The `POST /api/speak` handler: the `catch` clause answers 500 with the
generic error. -/
def apiSpeak (isServerTTSDisabled : Bool) (say : SayEngine)
    (body : GenerationRequest) : HttpResponse :=
  match apiSpeakTry isServerTTSDisabled say body with
  | .ok response => response
  | .error _ => { status := 500, body := .error "Failed to generate voice" }

/-! ## The client (`public/script.js`, class `VoiceEmotionStudio`)

The DOM is reduced to the three values the handlers read back: the value of
`#textInput`, the text of `#originalText` and the `disabled` flag of
`#generateBtn`.  Calls that leave the modelled state alone are effects:
`socket.emit`, `showNotification` (whether the message is rendered depends on
the user's notification preference and on the DOM, which are not modelled) and
`speakInBrowser` (not awaited by its callers).  Analytics are not modelled.
Neither `socket.emit` nor `showNotification` throws, so the `catch` clause of
the client's `generateVoice` is never entered. -/

/-- The code points JavaScript's `trim` removes: WhiteSpace and
LineTerminator. -/
def isWhiteSpace (c : Char) : Bool :=
  c.toNat == 0x09 || c.toNat == 0x0A || c.toNat == 0x0B || c.toNat == 0x0C ||
  c.toNat == 0x0D || c.toNat == 0x20 || c.toNat == 0xA0 || c.toNat == 0x1680 ||
  (decide (0x2000 ≤ c.toNat) && decide (c.toNat ≤ 0x200A)) ||
  c.toNat == 0x2028 || c.toNat == 0x2029 || c.toNat == 0x202F ||
  c.toNat == 0x205F || c.toNat == 0x3000 || c.toNat == 0xFEFF

/-- JavaScript `s.trim()`. -/
def trim (s : String) : String :=
  ⟨((s.data.dropWhile isWhiteSpace).reverse.dropWhile isWhiteSpace).reverse⟩

/-- JavaScript `s.length`: the number of UTF-16 code units, two for a code
point outside the basic plane. -/
def jsLength (s : String) : Nat :=
  (s.data.map (fun c => if 0x10000 ≤ c.toNat then 2 else 1)).sum

/-- A `voiceConfig` payload as `speakInBrowser` reads it: a numeric field may be
missing (`undefined` or `null`). -/
structure ReceivedConfig where
  text : String
  rate : Option ℚ
  pitch : Option ℚ
  volume : Option ℚ
deriving DecidableEq, Repr

/-- The payload the client receives when the server emits `voiceConfig`. -/
def VoiceParameters.toReceived (c : VoiceParameters) : ReceivedConfig :=
  { text := c.text, rate := some c.rate, pitch := some c.pitch, volume := some c.volume }

/-- The fields `speakInBrowser` sets on the `SpeechSynthesisUtterance`. -/
structure Utterance where
  text : String
  rate : ℚ
  pitch : ℚ
  volume : ℚ
deriving DecidableEq, Repr

/-- JavaScript `value || fallback` on a number that may be missing: a missing
value and 0 are falsy. -/
def orElse (value : Option ℚ) (fallback : ℚ) : ℚ :=
  match value with
  | none => fallback
  | some q => if q = 0 then fallback else q

/-- JavaScript `value != null ? value : fallback`. -/
def notNullOr (value : Option ℚ) (fallback : ℚ) : ℚ :=
  match value with
  | none => fallback
  | some q => q

/-- The utterance built by `speakInBrowser`: the text of the configuration and
the three values clamped to the Web Speech ranges. -/
def Client.utterance (voiceConfig : ReceivedConfig) : Utterance :=
  { text := voiceConfig.text
    rate := max 0.1 (min 10 (orElse voiceConfig.rate 1))
    pitch := max 0 (min 2 (orElse voiceConfig.pitch 1))
    volume := max 0 (min 1 (notNullOr voiceConfig.volume 1)) }

/-- The calls a client handler makes that leave the modelled state alone. -/
inductive ClientEffect where
  /-- The call `socket.emit('generateVoice', request)`. -/
  | emitGenerateVoice (request : GenerationRequest)
  /-- The call `showNotification(message, kind)`. -/
  | showNotification (message kind : String)
  /-- The call `speakInBrowser(voiceConfig)`. -/
  | speakInBrowser (voiceConfig : ReceivedConfig)
deriving DecidableEq, Repr

/-- What a call of `speakInBrowser` does: without browser support it only
notifies; otherwise it hands the utterance to `speechSynthesis.speak`. -/
def Client.speakInBrowser (speechSynthesisSupported : Bool)
    (voiceConfig : ReceivedConfig) : Except String Utterance :=
  if !speechSynthesisSupported then .error "Browser speech synthesis not supported"
  else .ok (Client.utterance voiceConfig)

/-- The fields of `VoiceEmotionStudio` the protocol uses, and the DOM values
its handlers read back. -/
structure ClientState where
  selectedEmotion : String
  intensity : Int
  isConnected : Bool
  isProcessing : Bool
  serverTTSDisabled : Bool
  lastVoiceConfig : Option ReceivedConfig
  /-- The value of `#textInput`. -/
  textInput : String
  /-- The text of `#originalText` in the output panel. -/
  originalText : String
  /-- The `disabled` flag of `#generateBtn`. -/
  generateBtnDisabled : Bool
deriving DecidableEq, Repr

/-- The requests sent to the server by a list of effects. -/
def sentRequests : List ClientEffect → List GenerationRequest
  | [] => []
  | .emitGenerateVoice request :: rest => request :: sentRequests rest
  | _ :: rest => sentRequests rest

/-- The configurations spoken locally by a list of effects. -/
def spokenConfigs : List ClientEffect → List ReceivedConfig
  | [] => []
  | .speakInBrowser voiceConfig :: rest => voiceConfig :: spokenConfigs rest
  | _ :: rest => spokenConfigs rest

/-- The messages handed to `showNotification` by a list of effects. -/
def notifiedMessages : List ClientEffect → List String
  | [] => []
  | .showNotification message _ :: rest => message :: notifiedMessages rest
  | _ :: rest => notifiedMessages rest

/-- The method `setProcessingState(processing)`. -/
def Client.setProcessingState (s : ClientState) (processing : Bool) : ClientState :=
  { s with isProcessing := processing, generateBtnDisabled := processing }

/-- The method `updateConnectionStatus(connected)` after the `connect` and
`disconnect` handlers have set `isConnected`. -/
def Client.onConnectionChange (s : ClientState) (connected : Bool) : ClientState :=
  { s with isConnected := connected, generateBtnDisabled := !connected }

/-- The method `handleTextInput(event)`, run after the user has changed the
value of `#textInput`: only the button state depends on the length. -/
def Client.handleTextInput (s : ClientState) : ClientState :=
  let charCount := jsLength s.textInput
  let maxChars := 500
  if 0 < charCount ∧ charCount ≤ maxChars ∧ s.isConnected = true then
    { s with generateBtnDisabled := false }
  else
    { s with generateBtnDisabled := true }

/-- The method `generateVoice()` of the client. -/
def Client.generateVoice (s : ClientState) : ClientState × List ClientEffect :=
  let text := trim s.textInput
  if text = "" then
    (s, [.showNotification "Please enter some text first!" "error"])
  else if !s.isConnected then
    (s, [.showNotification "Not connected to server. Please wait..." "error"])
  else if s.isProcessing then
    (s, [.showNotification "Already processing. Please wait..." "info"])
  else
    (Client.setProcessingState s true,
      [ .emitGenerateVoice
          { text := some text
            emotion := some s.selectedEmotion
            intensity := some s.intensity },
        .showNotification "Generating voice..." "info" ])

/-- A click on `#generateBtn`: a disabled button fires no click event. -/
def Client.clickGenerate (s : ClientState) : ClientState × List ClientEffect :=
  if s.generateBtnDisabled then (s, []) else Client.generateVoice s

/-- The `keydown` listener on Ctrl/Cmd+Enter. -/
def Client.keydownCtrlEnter (s : ClientState) : ClientState × List ClientEffect :=
  Client.generateVoice s

/-- The method `handleVoiceGenerated(result)`; `showOutput` writes the original
text of the result to the output panel. -/
def Client.handleVoiceGenerated (s : ClientState) (result : GenerationResult) :
    ClientState × List ClientEffect :=
  let s1 := Client.setProcessingState s false
  if result.success then
    ({ s1 with originalText := result.originalText },
      [.showNotification ("Voice generated with " ++ result.emotion ++ " emotion!") "success"])
  else
    (s1, [.showNotification "Failed to generate voice" "error"])

/-- The `voiceConfig` socket handler: stores the configuration;
`displayVoiceConfig` writes the current input text to the output panel. -/
def Client.onVoiceConfig (s : ClientState) (config : ReceivedConfig) :
    ClientState × List ClientEffect :=
  ({ s with lastVoiceConfig := some config, originalText := s.textInput }, [])

/-- The `voiceGenerated` socket handler. -/
def Client.onVoiceGenerated (s : ClientState) (result : GenerationResult) :
    ClientState × List ClientEffect :=
  let r := Client.handleVoiceGenerated s result
  match r.1.serverTTSDisabled, r.1.lastVoiceConfig with
  | true, some voiceConfig => (r.1, r.2 ++ [.speakInBrowser voiceConfig])
  | _, _ => r

/-- The `error` socket handler. -/
def Client.onError (s : ClientState) (error : String) : ClientState × List ClientEffect :=
  (s, [.showNotification error "error"])

/-- The method `playAgain()`. -/
def Client.playAgain (s : ClientState) : ClientState × List ClientEffect :=
  if s.originalText = "" then (s, [])
  else
    match s.serverTTSDisabled, s.lastVoiceConfig with
    | true, some voiceConfig => (s, [.speakInBrowser voiceConfig])
    | _, _ => Client.generateVoice { s with textInput := s.originalText }

/-- The client after its constructor has run, on a page whose text box and
output panel are empty. -/
def Client.initial : ClientState :=
  { selectedEmotion := "happy"
    intensity := 3
    isConnected := false
    isProcessing := false
    serverTTSDisabled := false
    lastVoiceConfig := none
    textInput := ""
    originalText := ""
    generateBtnDisabled := false }

/-- The user replaces the content of `#textInput` by `text`; the `input` event
then runs `handleTextInput`. -/
def Client.typeText (s : ClientState) (text : String) : ClientState :=
  Client.handleTextInput { s with textInput := text }

/-! ## Server configuration -/

/-- The three variables of `process.env` the server reads at startup; an unset
variable is `undefined`. -/
structure Environment where
  DISABLE_SERVER_TTS : Option String
  RENDER : Option String
  NODE_ENV : Option String
deriving DecidableEq, Repr

/-- The constant `isServerTTSDisabled`, computed once from the environment with
strict equality against three fixed strings. -/
def isServerTTSDisabled (env : Environment) : Bool :=
  env.DISABLE_SERVER_TTS == some "1" ||
  env.RENDER == some "true" ||
  env.NODE_ENV == some "production"

/-- The JSON body of the answer of `GET /api/config`. -/
structure ConfigResponse where
  serverTTSDisabled : Bool
deriving DecidableEq, Repr

/-- The `GET /api/config` handler. -/
def apiConfig (env : Environment) : ConfigResponse :=
  { serverTTSDisabled := isServerTTSDisabled env }

/-! ## Client and server together

One client talks to the server over one socket.  The channel delivers the
server's events in the order of emission and loses none; the server handles a
request when it is sent and its events wait in `pending` until the client
receives them. -/

/-- The method `selectEmotion(event)`: the emotion of the clicked button. -/
def Client.selectEmotion (s : ClientState) (emotion : String) : ClientState :=
  { s with selectedEmotion := emotion }

/-- The `input` listener of the intensity slider. -/
def Client.setIntensity (s : ClientState) (level : Int) : ClientState :=
  { s with intensity := level }

/-- The method `fetchConfig()` once `GET /api/config` has answered with the
server's flag. -/
def Client.onConfigFetched (s : ClientState) (config : ConfigResponse) : ClientState :=
  { s with serverTTSDisabled := config.serverTTSDisabled }

/-- The socket handler that runs when the client receives a server event. -/
def Client.onEvent (s : ClientState) : Event → ClientState × List ClientEffect
  | .voiceConfig config => Client.onVoiceConfig s config.toReceived
  | .voiceGenerated result => Client.onVoiceGenerated s result
  | .error message => Client.onError s message

/-- What can happen next: a transport event, the answer of `GET /api/config`,
a user action, or the delivery of the oldest pending server event. -/
inductive Action where
  | connect
  | disconnect
  | configFetched
  | typeText (text : String)
  | selectEmotion (emotion : String)
  | setIntensity (level : Int)
  | clickGenerate
  | keydownCtrlEnter
  | playAgain
  | deliver
deriving DecidableEq, Repr

/-- The client and the server events that are on their way to it. -/
structure System where
  client : ClientState
  pending : List Event
deriving DecidableEq, Repr

/-- The system when the page has loaded: the client as constructed and nothing
on the way. -/
def System.initial : System :=
  { client := Client.initial, pending := [] }

/-- The system after a client handler has run: every request the handler sent
is handled by the server, whose events join the pending ones. -/
def System.served (serverTTSDisabled : Bool) (say : SayEngine) (sys : System)
    (r : ClientState × List ClientEffect) : System × List ClientEffect :=
  ({ client := r.1
     pending := sys.pending ++
       (sentRequests r.2).flatMap (generateVoice serverTTSDisabled say) }, r.2)

/-- One step of the system, with the effects of the client handler that ran. -/
def System.step (serverTTSDisabled : Bool) (say : SayEngine) (sys : System) :
    Action → System × List ClientEffect
  | .connect => ({ sys with client := Client.onConnectionChange sys.client true }, [])
  | .disconnect => ({ sys with client := Client.onConnectionChange sys.client false }, [])
  | .configFetched =>
    ({ sys with client :=
        Client.onConfigFetched sys.client { serverTTSDisabled := serverTTSDisabled } }, [])
  | .typeText text => ({ sys with client := Client.typeText sys.client text }, [])
  | .selectEmotion emotion =>
    ({ sys with client := Client.selectEmotion sys.client emotion }, [])
  | .setIntensity level => ({ sys with client := Client.setIntensity sys.client level }, [])
  | .clickGenerate =>
    System.served serverTTSDisabled say sys (Client.clickGenerate sys.client)
  | .keydownCtrlEnter =>
    System.served serverTTSDisabled say sys (Client.keydownCtrlEnter sys.client)
  | .playAgain => System.served serverTTSDisabled say sys (Client.playAgain sys.client)
  | .deliver =>
    match sys.pending with
    | [] => (sys, [])
    | event :: rest =>
      ({ client := (Client.onEvent sys.client event).1, pending := rest },
        (Client.onEvent sys.client event).2)

/-- The system reached from the initial one by a sequence of actions. -/
def System.after (serverTTSDisabled : Bool) (say : SayEngine) (actions : List Action) :
    System :=
  actions.foldl (fun sys action => (System.step serverTTSDisabled say sys action).1)
    System.initial

/-- A configuration and a result that answer the same request: the result
reports the configuration's text, and the configuration is what the resolver
returns for the result's text, emotion and intensity. -/
def Resolved (config : VoiceParameters) (result : GenerationResult) : Prop :=
  result.modifiedText = config.text ∧
  applyVoiceModulation result.originalText result.emotion (some result.intensity) =
    .ok config

/-- The invariant of the system with server speech disabled: events are pending
only while the client is processing, and they are the rest of the answer to one
request, whose configuration the client holds once it has received it. -/
def System.Coherent (sys : System) : Prop :=
  (sys.pending ≠ [] → sys.client.isProcessing = true) ∧
  (sys.pending = [] ∨
    (∃ message, sys.pending = [.error message]) ∨
    (∃ config result, sys.pending = [.voiceConfig config, .voiceGenerated result] ∧
      Resolved config result) ∨
    (∃ config result, sys.pending = [.voiceGenerated result] ∧
      sys.client.lastVoiceConfig = some config.toReceived ∧ Resolved config result))

/-! ## Lemmas on the string primitives -/

theorem replaceGo_single (c : Char) (rep l : List Char) :
    replaceGo [c] rep 0 l = l.flatMap (fun x => if x = c then rep else [x]) := by
  induction l with
  | nil => simp [replaceGo]
  | cons x xs ih =>
    by_cases h : x = c
    · subst h
      simp [replaceGo, List.isPrefixOf, ih]
    · have h2 : ¬ c = x := fun e => h e.symm
      simp [replaceGo, List.isPrefixOf, ih, h, h2]

theorem replaceGo_single_char (c r : Char) (l : List Char) :
    replaceGo [c] [r] 0 l = l.map (fun x => if x = c then r else x) := by
  rw [replaceGo_single]
  induction l with
  | nil => simp
  | cons x xs ih =>
    by_cases h : x = c <;> simp [h, ih]

theorem endsWith_iff (s suffix : String) :
    endsWith s suffix = true ↔ ∃ init, s.data = init ++ suffix.data := by
  unfold endsWith
  rw [List.isSuffixOf_iff_suffix]
  constructor
  · rintro ⟨init, h⟩
    exact ⟨init, h.symm⟩
  · rintro ⟨init, h⟩
    exact ⟨init, h.symm⟩

theorem mem_recognisedEmotions (emotion : String) :
    emotion ∈ recognisedEmotions ↔
      emotion = "happy" ∨ emotion = "sad" ∨ emotion = "shock" ∨ emotion = "angry" ∨
        emotion = "sleepy" ∨ emotion = "thoughtful" := by
  simp [recognisedEmotions, voiceSettings]

/-- Unfolding of the resolver once its three lookups are known. -/
theorem applyVoiceModulation_eq (text emotion : String) (i : Option Int)
    (settings : EmotionSettings) (modify : String → Int → String)
    (entry : IntensitySettings)
    (hs : voiceSettings.lookup emotion = some settings)
    (hm : emotionModifications.lookup emotion = some modify)
    (he : intensityEntry settings (i.getD 3) = some entry) :
    applyVoiceModulation text emotion i =
      .ok { text := modify text (i.getD 3)
            rate := entry.rate
            pitch := entry.pitch
            volume := entry.volume
            voice := settings.base.voice
            intensity := i.getD 3 } := by
  simp [applyVoiceModulation, hs, hm, he]

/-- A table that declares level 3 answers every intensity. -/
theorem intensityEntry_isSome (settings : EmotionSettings) (n : Int)
    (entry3 : IntensitySettings) (h3 : settings.intensity.lookup 3 = some entry3) :
    ∃ entry, intensityEntry settings n = some entry := by
  unfold intensityEntry
  cases h : settings.intensity.lookup n with
  | none => exact ⟨entry3, by simpa using h3⟩
  | some e => exact ⟨e, rfl⟩

/-- Every recognised emotion has a settings object whose table declares
level 3, and a transformation. -/
theorem recognised_lookups (emotion : String) (h : emotion ∈ recognisedEmotions) :
    ∃ settings entry3 modify,
      voiceSettings.lookup emotion = some settings ∧
      settings.intensity.lookup 3 = some entry3 ∧
      emotionModifications.lookup emotion = some modify := by
  rw [mem_recognisedEmotions] at h
  rcases h with rfl | rfl | rfl | rfl | rfl | rfl
  all_goals exact ⟨_, _, _, rfl, rfl, rfl⟩

/-! ## The claims -/

/-- C1 (the code at the specification's example): resolving
`{text: "I am sad", emotion: "sad", intensity: 5}` gives rate 0.6, pitch 0.5 and
volume 0.7 as claimed, but the modified text is `I am sad` followed by nine
dots, not by three: the replacement of `.` by `...` also expands the three
dots that the first step has just appended. -/
theorem sad_example_has_nine_dots :
    applyVoiceModulation "I am sad" "sad" (some 5) =
      .ok { text := "I am sad........."
            rate := 0.6
            pitch := 0.5
            volume := 0.7
            voice := "Microsoft David Desktop"
            intensity := 5 } ∧
    "I am sad........." ≠ "I am sad..." :=
  ⟨rfl, by decide⟩

/-- C2: resolving `{text: "Hello world", emotion: "happy", intensity: 3}` gives
the modified text `Hello world!`, rate 1.2, pitch 1.3 and volume 1.0. -/
theorem happy_example_resolves :
    applyVoiceModulation "Hello world" "happy" (some 3) =
      .ok { text := "Hello world!"
            rate := 1.2
            pitch := 1.3
            volume := 1.0
            voice := "Microsoft David Desktop"
            intensity := 3 } :=
  rfl

theorem happy_eq_happySpec (text : String) (intensity : Int) :
    happy text intensity = happySpec text := by
  have key : ∀ l : List Char,
      replaceGo [','] ['!'] 0 (replaceGo ['.'] ['!'] 0 l) =
        l.map (fun ch => if ch = '.' ∨ ch = ',' then '!' else ch) := by
    intro l
    rw [replaceGo_single_char, replaceGo_single_char, List.map_map]
    apply List.map_congr_left
    intro ch _
    by_cases h1 : ch = '.'
    · simp [h1]
    · by_cases h2 : ch = ','
      · simp [h2]
      · simp [h1, h2]
  unfold happy happySpec replaceAll
  by_cases h : endsWith text "!" = true
  · simp only [h, Bool.not_true, Bool.false_eq_true, if_false, if_true]
    exact congrArg String.mk (key _)
  · simp only [h, Bool.not_eq_true] at h ⊢
    simp only [h, Bool.not_false, if_true, Bool.false_eq_true, if_false]
    exact congrArg String.mk (key _)

/-- C3: for every text the happy transformation returns the text, with `!`
appended unless it already ends with `!`, in which every `.` and every `,` is
replaced by `!`; the output ends with `!`, contains neither `.` nor `,`, and is
as long as the input or one character longer. -/
theorem happy_transformation (text : String) (intensity : Int) :
    happy text intensity = happySpec text ∧
    endsWith (happy text intensity) "!" = true ∧
    '.' ∉ (happy text intensity).data ∧
    ',' ∉ (happy text intensity).data ∧
    ((happy text intensity).length = text.length ∨
      (happy text intensity).length = text.length + 1) := by
  rw [happy_eq_happySpec]
  refine ⟨rfl, ?_, ?_, ?_, ?_⟩
  · rw [endsWith_iff]
    unfold happySpec
    by_cases h : endsWith text "!" = true
    · obtain ⟨init, hinit⟩ := (endsWith_iff _ _).1 h
      refine ⟨init.map (fun ch => if ch = '.' ∨ ch = ',' then '!' else ch), ?_⟩
      simp [h, hinit]
    · refine ⟨text.data.map (fun ch => if ch = '.' ∨ ch = ',' then '!' else ch), ?_⟩
      simp [h]
  · unfold happySpec
    simp only [List.mem_map, not_exists, not_and]
    intro ch _ hch
    by_cases h1 : ch = '.'
    · simp [h1] at hch
    · by_cases h2 : ch = ','
      · simp [h2] at hch
      · simp [h1, h2] at hch
  · unfold happySpec
    simp only [List.mem_map, not_exists, not_and]
    intro ch _ hch
    by_cases h1 : ch = '.'
    · simp [h1] at hch
    · by_cases h2 : ch = ','
      · simp [h2] at hch
      · simp [h1, h2] at hch
  · unfold happySpec
    by_cases h : endsWith text "!" = true
    · left
      simp only [h, if_true]
      show (List.map _ text.data).length = text.data.length
      simp
    · right
      simp only [h, Bool.false_eq_true, if_false]
      show (List.map _ (text ++ "!").data).length = text.data.length + 1
      simp

/-- What the chained replacements of `sad` do to each character of the text
after the append step: the dots that replace a `!` are found again by the
second replacement, so a `!` becomes nine dots where a `.` becomes three. -/
theorem sad_eq_flatMap (text : String) (intensity : Int) :
    (sad text intensity).data =
      (if endsWith text "..." then text else text ++ "...").data.flatMap
        (fun ch =>
          if ch = '!' then ['.', '.', '.', '.', '.', '.', '.', '.', '.']
          else if ch = '.' then ['.', '.', '.'] else [ch]) := by
  have key : ∀ l : List Char,
      replaceGo ['.'] ['.', '.', '.'] 0 (replaceGo ['!'] ['.', '.', '.'] 0 l) =
        l.flatMap (fun ch =>
          if ch = '!' then ['.', '.', '.', '.', '.', '.', '.', '.', '.']
          else if ch = '.' then ['.', '.', '.'] else [ch]) := by
    intro l
    rw [replaceGo_single, replaceGo_single]
    induction l with
    | nil => simp
    | cons x xs ih =>
      by_cases h1 : x = '!'
      · subst h1
        simp only [List.flatMap_cons, List.flatMap_append, ih, if_true]
        rfl
      · by_cases h2 : x = '.'
        · subst h2
          simp only [List.flatMap_cons, List.flatMap_append, ih]
          rfl
        · simp [List.flatMap_cons, List.flatMap_append, ih, h1, h2]
  unfold sad replaceAll
  by_cases h : endsWith text "..." = true
  · simp only [h, Bool.not_true, Bool.false_eq_true, if_false, if_true]
    exact key _
  · simp only [h, Bool.not_eq_true] at h ⊢
    simp only [h, Bool.not_false, if_true, Bool.false_eq_true, if_false]
    exact key _

/-- On a text without `!` the chained replacements of `sad` and the
simultaneous replacement of `sadSpec` give the same result. -/
theorem sad_eq_sadSpec_of_no_bang (text : String) (intensity : Int)
    (h : '!' ∉ text.data) : sad text intensity = sadSpec text := by
  have key : ∀ l : List Char, '!' ∉ l →
      l.flatMap (fun ch =>
          if ch = '!' then ['.', '.', '.', '.', '.', '.', '.', '.', '.']
          else if ch = '.' then ['.', '.', '.'] else [ch]) =
        l.flatMap (fun ch => if ch = '!' ∨ ch = '.' then ['.', '.', '.'] else [ch]) := by
    intro l
    induction l with
    | nil => intro _; rfl
    | cons x xs ih =>
      intro hx
      have hx1 : x ≠ '!' := fun e => hx (by simp [e])
      have hx2 : '!' ∉ xs := fun e => hx (List.mem_cons_of_mem _ e)
      simp only [List.flatMap_cons, ih hx2, hx1, if_false, false_or]
  have happ : '!' ∉ (if endsWith text "..." then text else text ++ "...").data := by
    by_cases he : endsWith text "..." = true
    · simpa [he] using h
    · simp only [he, Bool.false_eq_true, if_false, String.data_append, List.mem_append, not_or]
      exact ⟨h, by decide⟩
  apply String.ext
  rw [sad_eq_flatMap, key _ happ]
  rfl

/-- C4 (the code at a text with `!`): on `Help!` the sad transformation
returns `Help` followed by eighteen dots, while replacing each `!` and each `.`
of `Help!...` once by `...` gives `Help` followed by twelve dots. -/
theorem sad_expands_replaced_bang :
    sad "Help!" 3 = "Help.................." ∧
    sadSpec "Help!" = "Help............" ∧
    sad "Help!" 3 ≠ sadSpec "Help!" := by
  decide

/-- The text resolved for a recognised emotion is its transformation applied to
the request text, and the intensity is the argument or 3 when it is omitted. -/
theorem resolve_text (text emotion : String) (i : Option Int)
    (modify : String → Int → String)
    (hemo : emotion ∈ recognisedEmotions)
    (hm : emotionModifications.lookup emotion = some modify) :
    ∃ cfg, applyVoiceModulation text emotion i = .ok cfg ∧
      cfg.text = modify text (i.getD 3) ∧ cfg.intensity = i.getD 3 := by
  obtain ⟨settings, entry3, modify2, hs, h3, hm2⟩ := recognised_lookups emotion hemo
  obtain ⟨entry, he⟩ := intensityEntry_isSome settings (i.getD 3) entry3 h3
  rw [hm] at hm2
  exact ⟨_, applyVoiceModulation_eq text emotion i settings modify entry hs hm he, rfl, rfl⟩

/-- C5: for every text and every intensity (absent, in range or out of range)
the modified text is exactly the wrapper around the unchanged text:
`Oh my! t! Wow!` for shock, `Listen! t! Now!` for angry,
`Yawn... t... zzz...` for sleepy and `Hmm... t... I think...` for thoughtful. -/
theorem wrapper_texts (t : String) (i : Option Int) :
    (∃ cfg, applyVoiceModulation t "shock" i = .ok cfg ∧
      cfg.text = "Oh my! " ++ t ++ "! Wow!") ∧
    (∃ cfg, applyVoiceModulation t "angry" i = .ok cfg ∧
      cfg.text = "Listen! " ++ t ++ "! Now!") ∧
    (∃ cfg, applyVoiceModulation t "sleepy" i = .ok cfg ∧
      cfg.text = "Yawn... " ++ t ++ "... zzz...") ∧
    (∃ cfg, applyVoiceModulation t "thoughtful" i = .ok cfg ∧
      cfg.text = "Hmm... " ++ t ++ "... I think...") := by
  refine ⟨?_, ?_, ?_, ?_⟩
  · obtain ⟨cfg, h, ht, _⟩ := resolve_text t "shock" i shock
      ((mem_recognisedEmotions _).2 (by simp)) rfl
    exact ⟨cfg, h, ht⟩
  · obtain ⟨cfg, h, ht, _⟩ := resolve_text t "angry" i angry
      ((mem_recognisedEmotions _).2 (by simp)) rfl
    exact ⟨cfg, h, ht⟩
  · obtain ⟨cfg, h, ht, _⟩ := resolve_text t "sleepy" i sleepy
      ((mem_recognisedEmotions _).2 (by simp)) rfl
    exact ⟨cfg, h, ht⟩
  · obtain ⟨cfg, h, ht, _⟩ := resolve_text t "thoughtful" i thoughtful
      ((mem_recognisedEmotions _).2 (by simp)) rfl
    exact ⟨cfg, h, ht⟩

/-- A key outside 1..5 is missing from a table that declares levels 1 to 5. -/
theorem lookup_outside (n : Int) (hn : n < 1 ∨ 5 < n) (a b c d e : IntensitySettings) :
    List.lookup n [(1, a), (2, b), (3, c), (4, d), (5, e)] = none := by
  have h1 : (n == 1) = false := by simp; omega
  have h2 : (n == 2) = false := by simp; omega
  have h3 : (n == 3) = false := by simp; omega
  have h4 : (n == 4) = false := by simp; omega
  have h5 : (n == 5) = false := by simp; omega
  simp [List.lookup, h1, h2, h3, h4, h5]

/-- For a recognised emotion an intensity outside 1..5 resolves to the level-3
entry of the table. -/
theorem intensityEntry_outside (emotion : String) (settings : EmotionSettings)
    (hemo : emotion ∈ recognisedEmotions)
    (hs : voiceSettings.lookup emotion = some settings)
    (n : Int) (hn : n < 1 ∨ 5 < n) :
    intensityEntry settings n = settings.intensity.lookup 3 := by
  rw [mem_recognisedEmotions] at hemo
  rcases hemo with rfl | rfl | rfl | rfl | rfl | rfl
  all_goals
    have hs2 := Option.some.inj (Eq.trans (Eq.symm (by rfl)) hs)
    subst hs2
    unfold intensityEntry
    rw [lookup_outside n hn]

theorem intensityEntry_three (settings : EmotionSettings) (entry3 : IntensitySettings)
    (h3 : settings.intensity.lookup 3 = some entry3) :
    intensityEntry settings 3 = some entry3 := by
  unfold intensityEntry
  rw [h3]

/-- C6: for every recognised emotion and every text, when the intensity is
absent or is an integer outside 1..5, the resolver returns the rate, pitch and
volume of the emotion's level-3 entry, the same as for intensity 3. -/
theorem out_of_range_uses_level3 (text emotion : String) (i : Option Int)
    (hemo : emotion ∈ recognisedEmotions)
    (hi : ∀ n, i = some n → n < 1 ∨ 5 < n) :
    ∃ settings entry3 cfg cfg3,
      voiceSettings.lookup emotion = some settings ∧
      settings.intensity.lookup 3 = some entry3 ∧
      applyVoiceModulation text emotion i = .ok cfg ∧
      applyVoiceModulation text emotion (some 3) = .ok cfg3 ∧
      cfg.rate = entry3.rate ∧ cfg.pitch = entry3.pitch ∧ cfg.volume = entry3.volume ∧
      cfg.rate = cfg3.rate ∧ cfg.pitch = cfg3.pitch ∧ cfg.volume = cfg3.volume := by
  obtain ⟨settings, entry3, modify, hs, h3, hm⟩ := recognised_lookups emotion hemo
  have he3 : intensityEntry settings ((some (3 : Int)).getD 3) = some entry3 :=
    intensityEntry_three settings entry3 h3
  have he : intensityEntry settings (i.getD 3) = some entry3 := by
    cases i with
    | none => exact he3
    | some n =>
      show intensityEntry settings n = some entry3
      rw [intensityEntry_outside emotion settings hemo hs n (hi n rfl), h3]
  exact ⟨settings, entry3, _, _, hs, h3,
    applyVoiceModulation_eq text emotion i settings modify entry3 hs hm he,
    applyVoiceModulation_eq text emotion (some 3) settings modify entry3 hs hm he3,
    rfl, rfl, rfl, rfl, rfl, rfl⟩

/-- C6 at `{text: "Hello", emotion: "sad", intensity: 9}`. -/
theorem out_of_range_uses_level3_witness :
    ∃ settings entry3 cfg cfg3,
      voiceSettings.lookup "sad" = some settings ∧
      settings.intensity.lookup 3 = some entry3 ∧
      applyVoiceModulation "Hello" "sad" (some 9) = .ok cfg ∧
      applyVoiceModulation "Hello" "sad" (some 3) = .ok cfg3 ∧
      cfg.rate = entry3.rate ∧ cfg.pitch = entry3.pitch ∧ cfg.volume = entry3.volume ∧
      cfg.rate = cfg3.rate ∧ cfg.pitch = cfg3.pitch ∧ cfg.volume = cfg3.volume :=
  out_of_range_uses_level3 "Hello" "sad" (some 9)
    ((mem_recognisedEmotions _).2 (by simp))
    (fun n h => by cases h; exact Or.inr (by decide))

/-- The handler passes an intensity that is never `undefined`, so the default
parameter of the resolver does not change it. -/
theorem applyVoiceModulation_getD (text emotion : String) (i : Option Int) :
    applyVoiceModulation text emotion (some (i.getD 3)) =
      applyVoiceModulation text emotion i := by
  cases i <;> rfl

/-- The runs of the realtime handler: a validation error alone, the generic
error alone (the resolver threw), or the configuration event followed by the
generic error (the speech promise rejected) or by the result event. -/
theorem generateVoice_cases (isServerTTSDisabled : Bool) (say : SayEngine)
    (data : GenerationRequest) :
    ((truthy data.text = none ∨ truthy data.emotion = none) ∧
      generateVoice isServerTTSDisabled say data =
        [.error "Text and emotion are required"]) ∨
    ∃ text emotion, truthy data.text = some text ∧ truthy data.emotion = some emotion ∧
      ((∃ e, applyVoiceModulation text emotion data.intensity = .error e ∧
          generateVoice isServerTTSDisabled say data =
            [.error "Failed to generate voice"]) ∨
       ∃ cfg, applyVoiceModulation text emotion data.intensity = .ok cfg ∧
        ((∃ e, speakWithEmotion isServerTTSDisabled say cfg emotion = .error e ∧
            generateVoice isServerTTSDisabled say data =
              [.voiceConfig cfg, .error "Failed to generate voice"]) ∨
         (speakWithEmotion isServerTTSDisabled say cfg emotion = .ok () ∧
            generateVoice isServerTTSDisabled say data =
              [.voiceConfig cfg,
               .voiceGenerated
                 { success := true
                   emotion := emotion
                   intensity := data.intensity.getD 3
                   originalText := text
                   modifiedText := cfg.text }]))) := by
  unfold generateVoice generateVoiceTry
  cases ht : truthy data.text with
  | none => left; exact ⟨Or.inl rfl, rfl⟩
  | some text =>
    cases hem : truthy data.emotion with
    | none => left; exact ⟨Or.inr rfl, rfl⟩
    | some emotion =>
      right
      refine ⟨text, emotion, rfl, rfl, ?_⟩
      simp only [applyVoiceModulation_getD]
      cases ha : applyVoiceModulation text emotion data.intensity with
      | error e => left; exact ⟨e, rfl, rfl⟩
      | ok cfg =>
        right
        refine ⟨cfg, rfl, ?_⟩
        dsimp only
        cases hsp : speakWithEmotion isServerTTSDisabled say cfg emotion with
        | error e => left; exact ⟨e, rfl, rfl⟩
        | ok u => right; exact ⟨rfl, rfl⟩

/-- The resolver returns the intensity it was called with, 3 when the argument
was omitted. -/
theorem applyVoiceModulation_intensity (text emotion : String) (i : Option Int)
    (cfg : VoiceParameters) (h : applyVoiceModulation text emotion i = .ok cfg) :
    cfg.intensity = i.getD 3 := by
  unfold applyVoiceModulation at h
  dsimp only at h
  split at h
  · cases h
  · split at h
    · cases h
    · split at h
      · cases h
      · cases h
        rfl

/-- C7 (the claim fails at intensity 7): for
`{text: "Hello", emotion: "happy", intensity: 7}` the resolved parameters and
the result event both carry intensity 7, which is neither 3 nor in 1..5. -/
theorem out_of_range_intensity_is_kept :
    applyVoiceModulation "Hello" "happy" (some 7) =
      .ok { text := "Hello!"
            rate := 1.2
            pitch := 1.3
            volume := 1.0
            voice := "Microsoft David Desktop"
            intensity := 7 } ∧
    generateVoice true (fun _ _ _ => none)
        { text := some "Hello", emotion := some "happy", intensity := some 7 } =
      [ .voiceConfig
          { text := "Hello!"
            rate := 1.2
            pitch := 1.3
            volume := 1.0
            voice := "Microsoft David Desktop"
            intensity := 7 },
        .voiceGenerated
          { success := true
            emotion := "happy"
            intensity := 7
            originalText := "Hello"
            modifiedText := "Hello!" } ] ∧
    (7 : Int) ≠ 3 ∧ ¬ ((1 : Int) ≤ 7 ∧ (7 : Int) ≤ 5) :=
  ⟨rfl, rfl, by decide, by decide⟩

/-- C7 (amended): for a recognised emotion the resolver succeeds and the
intensity it carries is 3 when the request has none and the request's own
integer otherwise, in range or not; every configuration event and every result
event of the handler carries that same value. -/
theorem intensity_is_echoed (isServerTTSDisabled : Bool) (say : SayEngine)
    (data : GenerationRequest) (text emotion : String)
    (hemo : emotion ∈ recognisedEmotions) :
    (∃ cfg, applyVoiceModulation text emotion data.intensity = .ok cfg ∧
      cfg.intensity = data.intensity.getD 3) ∧
    (data.intensity = none → data.intensity.getD 3 = 3) ∧
    (∀ n, data.intensity = some n → data.intensity.getD 3 = n) ∧
    (∀ c, Event.voiceConfig c ∈ generateVoice isServerTTSDisabled say data →
      c.intensity = data.intensity.getD 3) ∧
    (∀ r, Event.voiceGenerated r ∈ generateVoice isServerTTSDisabled say data →
      r.intensity = data.intensity.getD 3) := by
  refine ⟨?_, ?_, ?_, ?_, ?_⟩
  · obtain ⟨settings, entry3, modify, _, _, hm⟩ := recognised_lookups emotion hemo
    obtain ⟨cfg, h, _, hi⟩ := resolve_text text emotion data.intensity modify hemo hm
    exact ⟨cfg, h, hi⟩
  · intro h
    rw [h]
    rfl
  · intro n h
    rw [h]
    rfl
  · intro c hc
    rcases generateVoice_cases isServerTTSDisabled say data with
      ⟨_, h⟩ | ⟨t, e, _, _, ⟨_, _, h⟩ | ⟨cfg, hcfg, ⟨_, _, h⟩ | ⟨_, h⟩⟩⟩
    · rw [h] at hc
      simp at hc
    · rw [h] at hc
      simp at hc
    · rw [h] at hc
      simp at hc
      subst hc
      exact applyVoiceModulation_intensity t e data.intensity c hcfg
    · rw [h] at hc
      simp at hc
      subst hc
      exact applyVoiceModulation_intensity t e data.intensity c hcfg
  · intro r hr
    rcases generateVoice_cases isServerTTSDisabled say data with
      ⟨_, h⟩ | ⟨t, e, _, _, ⟨_, _, h⟩ | ⟨cfg, hcfg, ⟨_, _, h⟩ | ⟨_, h⟩⟩⟩
    · rw [h] at hr
      simp at hr
    · rw [h] at hr
      simp at hr
    · rw [h] at hr
      simp at hr
    · rw [h] at hr
      simp at hr
      subst hr
      rfl

/-- C7 (amended) at `{text: "Hello", emotion: "happy", intensity: 7}` with
server speech disabled. -/
theorem intensity_is_echoed_witness :
    (∃ cfg, applyVoiceModulation "Hello" "happy" (some 7) = .ok cfg ∧
      cfg.intensity = (some (7 : Int)).getD 3) ∧
    ((some (7 : Int)) = none → (some (7 : Int)).getD 3 = 3) ∧
    (∀ n, some (7 : Int) = some n → (some (7 : Int)).getD 3 = n) ∧
    (∀ c, Event.voiceConfig c ∈ generateVoice true (fun _ _ _ => none)
        { text := some "Hello", emotion := some "happy", intensity := some 7 } →
      c.intensity = (some (7 : Int)).getD 3) ∧
    (∀ r, Event.voiceGenerated r ∈ generateVoice true (fun _ _ _ => none)
        { text := some "Hello", emotion := some "happy", intensity := some 7 } →
      r.intensity = (some (7 : Int)).getD 3) :=
  intensity_is_echoed true (fun _ _ _ => none)
    { text := some "Hello", emotion := some "happy", intensity := some 7 }
    "Hello" "happy" ((mem_recognisedEmotions _).2 (by simp))

/-- C8: for every text, every intensity (absent, in range or out of range) and
every recognised emotion, the emotion lookup, the intensity lookup with its
level-3 fallback and the transformation lookup all succeed, and
`applyVoiceModulation` returns a value instead of throwing. -/
theorem resolver_never_raises (text emotion : String) (i : Option Int)
    (hemo : emotion ∈ recognisedEmotions) :
    ∃ settings entry modify cfg,
      voiceSettings.lookup emotion = some settings ∧
      intensityEntry settings (i.getD 3) = some entry ∧
      emotionModifications.lookup emotion = some modify ∧
      applyVoiceModulation text emotion i = .ok cfg := by
  obtain ⟨settings, entry3, modify, hs, h3, hm⟩ := recognised_lookups emotion hemo
  obtain ⟨entry, he⟩ := intensityEntry_isSome settings (i.getD 3) entry3 h3
  exact ⟨settings, entry, modify, _, hs, he, hm,
    applyVoiceModulation_eq text emotion i settings modify entry hs hm he⟩

/-- C8 at `{text: "I am tired", emotion: "sleepy", intensity: -4}`. -/
theorem resolver_never_raises_witness :
    ∃ settings entry modify cfg,
      voiceSettings.lookup "sleepy" = some settings ∧
      intensityEntry settings ((some (-4 : Int)).getD 3) = some entry ∧
      emotionModifications.lookup "sleepy" = some modify ∧
      applyVoiceModulation "I am tired" "sleepy" (some (-4)) = .ok cfg :=
  resolver_never_raises "I am tired" "sleepy" (some (-4))
    ((mem_recognisedEmotions _).2 (by simp))

theorem truthy_eq_none (v : Option String) : truthy v = none ↔ v = none ∨ v = some "" := by
  cases v with
  | none => simp [truthy]
  | some s =>
    by_cases h : s = ""
    · simp [truthy, h]
    · simp [truthy, h]

/-- On a payload that can be destructured and whose text or emotion is missing
or empty, the handler emits the validation error and nothing else. -/
theorem missing_field_is_rejected (isServerTTSDisabled : Bool) (say : SayEngine)
    (data : GenerationRequest)
    (h : (data.text = none ∨ data.text = some "") ∨
      (data.emotion = none ∨ data.emotion = some "")) :
    generateVoice isServerTTSDisabled say data = [.error "Text and emotion are required"] ∧
    (generateVoice isServerTTSDisabled say data).length = 1 ∧
    (generateVoice isServerTTSDisabled say data).countP Event.isConfig = 0 ∧
    (generateVoice isServerTTSDisabled say data).countP Event.isResult = 0 := by
  have key : generateVoice isServerTTSDisabled say data =
      [.error "Text and emotion are required"] := by
    rcases generateVoice_cases isServerTTSDisabled say data with ⟨_, hg⟩ | ⟨t, e, ht, he, _⟩
    · exact hg
    · rcases h with h | h
      · rw [(truthy_eq_none _).2 h] at ht
        cases ht
      · rw [(truthy_eq_none _).2 h] at he
        cases he
  rw [key]
  exact ⟨rfl, rfl, rfl, rfl⟩

/-- On a payload that can be destructured the handler is `generateVoice`. -/
theorem onGenerateVoice_some (isServerTTSDisabled : Bool) (say : SayEngine)
    (data : GenerationRequest) :
    onGenerateVoice isServerTTSDisabled say (some data) =
      generateVoice isServerTTSDisabled say data :=
  rfl

/-- On a missing payload the destructuring throws and the handler emits the
generic error alone. -/
theorem onGenerateVoice_none (isServerTTSDisabled : Bool) (say : SayEngine) :
    onGenerateVoice isServerTTSDisabled say none = [.error "Failed to generate voice"] :=
  rfl

/-- C9 (the claim fails when the payload itself is missing): for a
`generateVoice` event sent without payload, in which text and emotion are both
missing, the destructuring throws inside `try` and the one event emitted is the
error `Failed to generate voice`, not `Text and emotion are required`. -/
theorem missing_payload_gets_generic_error :
    onGenerateVoice false (fun _ _ _ => none) none = [.error "Failed to generate voice"] ∧
    onGenerateVoice false (fun _ _ _ => none) none ≠
      [.error "Text and emotion are required"] ∧
    Event.error "Text and emotion are required" ∉
      onGenerateVoice false (fun _ _ _ => none) none := by
  refine ⟨rfl, ?_, ?_⟩
  · rw [onGenerateVoice_none]
    decide
  · rw [onGenerateVoice_none]
    decide

/-- C9 (amended): for a request whose payload can be destructured and in which
the text is missing or empty, or the emotion is missing or empty, the handler
emits exactly one event, the error event `Text and emotion are required`, and
neither a configuration event nor a result event; for a request whose payload
is itself missing the handler also emits exactly one event and neither a
configuration event nor a result event, but the message is
`Failed to generate voice`. -/
theorem invalid_request_single_error (isServerTTSDisabled : Bool) (say : SayEngine)
    (data : GenerationRequest)
    (h : (data.text = none ∨ data.text = some "") ∨
      (data.emotion = none ∨ data.emotion = some "")) :
    (onGenerateVoice isServerTTSDisabled say (some data) =
        [.error "Text and emotion are required"] ∧
      (onGenerateVoice isServerTTSDisabled say (some data)).length = 1 ∧
      (onGenerateVoice isServerTTSDisabled say (some data)).countP Event.isConfig = 0 ∧
      (onGenerateVoice isServerTTSDisabled say (some data)).countP Event.isResult = 0) ∧
    (onGenerateVoice isServerTTSDisabled say none = [.error "Failed to generate voice"] ∧
      (onGenerateVoice isServerTTSDisabled say none).length = 1 ∧
      (onGenerateVoice isServerTTSDisabled say none).countP Event.isConfig = 0 ∧
      (onGenerateVoice isServerTTSDisabled say none).countP Event.isResult = 0) := by
  refine ⟨?_, rfl, rfl, rfl, rfl⟩
  rw [onGenerateVoice_some]
  exact missing_field_is_rejected isServerTTSDisabled say data h

/-- C9 (amended) at a request without an emotion, with server speech enabled
and an engine that would succeed. -/
theorem invalid_request_single_error_witness :
    (onGenerateVoice false (fun _ _ _ => none)
        (some { text := some "Hello world", emotion := none, intensity := some 3 }) =
        [.error "Text and emotion are required"] ∧
      (onGenerateVoice false (fun _ _ _ => none)
        (some { text := some "Hello world", emotion := none,
                intensity := some 3 })).length = 1 ∧
      (onGenerateVoice false (fun _ _ _ => none)
        (some { text := some "Hello world", emotion := none,
                intensity := some 3 })).countP Event.isConfig = 0 ∧
      (onGenerateVoice false (fun _ _ _ => none)
        (some { text := some "Hello world", emotion := none,
                intensity := some 3 })).countP Event.isResult = 0) ∧
    (onGenerateVoice false (fun _ _ _ => none) none = [.error "Failed to generate voice"] ∧
      (onGenerateVoice false (fun _ _ _ => none) none).length = 1 ∧
      (onGenerateVoice false (fun _ _ _ => none) none).countP Event.isConfig = 0 ∧
      (onGenerateVoice false (fun _ _ _ => none) none).countP Event.isResult = 0) :=
  invalid_request_single_error false (fun _ _ _ => none)
    { text := some "Hello world", emotion := none, intensity := some 3 }
    (Or.inr (Or.inl rfl))

/-- C10: for every request, every value of the server-speech flag and every
outcome of the external speech call, the handler emits exactly one terminal
event: one result event and no error event, or one error event and no result
event. -/
theorem exactly_one_terminal_event (isServerTTSDisabled : Bool) (say : SayEngine)
    (data : GenerationRequest) :
    (generateVoice isServerTTSDisabled say data).countP Event.isTerminal = 1 ∧
    (((generateVoice isServerTTSDisabled say data).countP Event.isResult = 1 ∧
        (generateVoice isServerTTSDisabled say data).countP Event.isError = 0) ∨
      ((generateVoice isServerTTSDisabled say data).countP Event.isResult = 0 ∧
        (generateVoice isServerTTSDisabled say data).countP Event.isError = 1)) := by
  rcases generateVoice_cases isServerTTSDisabled say data with
    ⟨_, h⟩ | ⟨t, e, _, _, ⟨_, _, h⟩ | ⟨cfg, hcfg, ⟨_, _, h⟩ | ⟨_, h⟩⟩⟩
  · rw [h]
    exact ⟨rfl, Or.inr ⟨rfl, rfl⟩⟩
  · rw [h]
    exact ⟨rfl, Or.inr ⟨rfl, rfl⟩⟩
  · rw [h]
    exact ⟨rfl, Or.inr ⟨rfl, rfl⟩⟩
  · rw [h]
    exact ⟨rfl, Or.inl ⟨rfl, rfl⟩⟩

/-! ## The handler on resolved and unresolved requests -/

theorem truthy_some (text : String) (h : text ≠ "") : truthy (some text) = some text := by
  simp [truthy, h]

theorem recognised_ne_empty (emotion : String) (h : emotion ∈ recognisedEmotions) :
    emotion ≠ "" := by
  rw [mem_recognisedEmotions] at h
  rcases h with rfl | rfl | rfl | rfl | rfl | rfl <;> decide

/-- The emotion lookup fails outside the recognised set. -/
theorem lookup_unrecognised (emotion : String) (h : emotion ∉ recognisedEmotions) :
    voiceSettings.lookup emotion = none := by
  rw [mem_recognisedEmotions] at h
  simp only [not_or] at h
  obtain ⟨h1, h2, h3, h4, h5, h6⟩ := h
  have e1 : (emotion == "happy") = false := by simpa using h1
  have e2 : (emotion == "sad") = false := by simpa using h2
  have e3 : (emotion == "shock") = false := by simpa using h3
  have e4 : (emotion == "angry") = false := by simpa using h4
  have e5 : (emotion == "sleepy") = false := by simpa using h5
  have e6 : (emotion == "thoughtful") = false := by simpa using h6
  simp [voiceSettings, List.lookup, e1, e2, e3, e4, e5, e6]

/-- The speech promise resolves when server speech is disabled or the engine
reports no error for the call that is made. -/
theorem speakWithEmotion_ok (isServerTTSDisabled : Bool) (say : SayEngine)
    (cfg : VoiceParameters) (emotion : String)
    (h : isServerTTSDisabled = true ∨ say (finalText cfg emotion) cfg.voice cfg.rate = none) :
    speakWithEmotion isServerTTSDisabled say cfg emotion = .ok () := by
  unfold speakWithEmotion
  rcases h with h | h
  · simp [h]
  · cases isServerTTSDisabled <;> simp [h]

/-- The speech promise rejects when server speech is enabled and the engine
reports an error for the call that is made. -/
theorem speakWithEmotion_error (say : SayEngine) (cfg : VoiceParameters)
    (emotion : String) (err : JSError)
    (h : say (finalText cfg emotion) cfg.voice cfg.rate = some err) :
    speakWithEmotion false say cfg emotion = .error err := by
  simp [speakWithEmotion, h]

/-- The events of the handler once the request is valid and resolved: the
configuration event, then the result event or the generic error according to
the speech promise. -/
theorem generateVoice_resolved (isServerTTSDisabled : Bool) (say : SayEngine)
    (text emotion : String) (i : Option Int) (cfg : VoiceParameters)
    (ht : text ≠ "") (he : emotion ≠ "")
    (hcfg : applyVoiceModulation text emotion i = .ok cfg) :
    generateVoice isServerTTSDisabled say
        { text := some text, emotion := some emotion, intensity := i } =
      match speakWithEmotion isServerTTSDisabled say cfg emotion with
      | .ok _ =>
        [ .voiceConfig cfg,
          .voiceGenerated
            { success := true
              emotion := emotion
              intensity := i.getD 3
              originalText := text
              modifiedText := cfg.text } ]
      | .error _ => [.voiceConfig cfg, .error "Failed to generate voice"] := by
  unfold generateVoice generateVoiceTry
  simp only [truthy_some text ht, truthy_some emotion he, applyVoiceModulation_getD, hcfg]
  cases speakWithEmotion isServerTTSDisabled say cfg emotion <;> rfl

/-- The events of the handler once the request is valid and the resolver
throws: the generic error alone. -/
theorem generateVoice_unresolved (isServerTTSDisabled : Bool) (say : SayEngine)
    (text emotion : String) (i : Option Int) (e : JSError)
    (ht : text ≠ "") (he : emotion ≠ "")
    (hcfg : applyVoiceModulation text emotion i = .error e) :
    generateVoice isServerTTSDisabled say
        { text := some text, emotion := some emotion, intensity := i } =
      [.error "Failed to generate voice"] := by
  unfold generateVoice generateVoiceTry
  simp only [truthy_some text ht, truthy_some emotion he, applyVoiceModulation_getD, hcfg]
  rfl

/-- C11: for a request with non-empty text and a recognised emotion, when
server speech is disabled or the external speech call succeeds, the handler
emits exactly the configuration event, equal to the resolver's result, and then
the result event with `success: true`, the emotion, the intensity, the original
text and the configuration's text; with server speech disabled the speech step
succeeds whatever the engine would do. -/
theorem success_emits_config_then_result (isServerTTSDisabled : Bool) (say : SayEngine)
    (text emotion : String) (i : Option Int)
    (ht : text ≠ "") (hemo : emotion ∈ recognisedEmotions)
    (hspeech : isServerTTSDisabled = true ∨
      ∀ cfg, applyVoiceModulation text emotion i = .ok cfg →
        say (finalText cfg emotion) cfg.voice cfg.rate = none) :
    ∃ cfg, applyVoiceModulation text emotion i = .ok cfg ∧
      generateVoice isServerTTSDisabled say
          { text := some text, emotion := some emotion, intensity := i } =
        [ .voiceConfig cfg,
          .voiceGenerated
            { success := true
              emotion := emotion
              intensity := i.getD 3
              originalText := text
              modifiedText := cfg.text } ] ∧
      (∀ (engine : SayEngine) (c : VoiceParameters) (e : String),
        speakWithEmotion true engine c e = .ok ()) := by
  obtain ⟨settings, entry3, modify, _, _, hm⟩ := recognised_lookups emotion hemo
  obtain ⟨cfg, hcfg, _, _⟩ := resolve_text text emotion i modify hemo hm
  have hsp : speakWithEmotion isServerTTSDisabled say cfg emotion = .ok () := by
    apply speakWithEmotion_ok
    rcases hspeech with h | h
    · exact Or.inl h
    · exact Or.inr (h cfg hcfg)
  refine ⟨cfg, hcfg, ?_, ?_⟩
  · rw [generateVoice_resolved isServerTTSDisabled say text emotion i cfg ht
      (recognised_ne_empty emotion hemo) hcfg, hsp]
  · intro engine c e
    rfl

/-- C11 at `{text: "What a surprise", emotion: "shock", intensity: 4}` with
server speech enabled and an engine that succeeds. -/
theorem success_emits_config_then_result_witness :
    ∃ cfg, applyVoiceModulation "What a surprise" "shock" (some 4) = .ok cfg ∧
      generateVoice false (fun _ _ _ => none)
          { text := some "What a surprise", emotion := some "shock", intensity := some 4 } =
        [ .voiceConfig cfg,
          .voiceGenerated
            { success := true
              emotion := "shock"
              intensity := (some (4 : Int)).getD 3
              originalText := "What a surprise"
              modifiedText := cfg.text } ] ∧
      (∀ (engine : SayEngine) (c : VoiceParameters) (e : String),
        speakWithEmotion true engine c e = .ok ()) :=
  success_emits_config_then_result false (fun _ _ _ => none) "What a surprise" "shock"
    (some 4) (by decide) ((mem_recognisedEmotions _).2 (by simp))
    (Or.inr (fun _ _ => rfl))

/-- C12: for a request with non-empty text and a recognised emotion, when
server speech is enabled and the engine fails, the handler emits the
configuration event and then the error event `Failed to generate voice`, and no
result event; the events are the same whatever error value the engine gave. -/
theorem engine_failure_emits_config_then_error (say : SayEngine)
    (text emotion : String) (i : Option Int)
    (ht : text ≠ "") (hemo : emotion ∈ recognisedEmotions)
    (hfail : ∀ cfg, applyVoiceModulation text emotion i = .ok cfg →
      ∃ err, say (finalText cfg emotion) cfg.voice cfg.rate = some err) :
    ∃ cfg, applyVoiceModulation text emotion i = .ok cfg ∧
      generateVoice false say
          { text := some text, emotion := some emotion, intensity := i } =
        [.voiceConfig cfg, .error "Failed to generate voice"] ∧
      (generateVoice false say
          { text := some text, emotion := some emotion, intensity := i }).countP
        Event.isResult = 0 ∧
      (∀ other : SayEngine,
        (∃ err, other (finalText cfg emotion) cfg.voice cfg.rate = some err) →
        generateVoice false other
            { text := some text, emotion := some emotion, intensity := i } =
          generateVoice false say
            { text := some text, emotion := some emotion, intensity := i }) := by
  obtain ⟨settings, entry3, modify, _, _, hm⟩ := recognised_lookups emotion hemo
  obtain ⟨cfg, hcfg, _, _⟩ := resolve_text text emotion i modify hemo hm
  have hne := recognised_ne_empty emotion hemo
  have key : ∀ engine : SayEngine,
      (∃ err, engine (finalText cfg emotion) cfg.voice cfg.rate = some err) →
      generateVoice false engine
          { text := some text, emotion := some emotion, intensity := i } =
        [.voiceConfig cfg, .error "Failed to generate voice"] := by
    rintro engine ⟨err, herr⟩
    rw [generateVoice_resolved false engine text emotion i cfg ht hne hcfg,
      speakWithEmotion_error engine cfg emotion err herr]
  refine ⟨cfg, hcfg, key say (hfail cfg hcfg), ?_, ?_⟩
  · rw [key say (hfail cfg hcfg)]
    rfl
  · intro other hother
    rw [key other hother, key say (hfail cfg hcfg)]

/-- C12 at `{text: "I am angry", emotion: "angry"}` with an engine that always
fails. -/
theorem engine_failure_emits_config_then_error_witness :
    ∃ cfg, applyVoiceModulation "I am angry" "angry" none = .ok cfg ∧
      generateVoice false (fun _ _ _ => some (.engineError "no audio device"))
          { text := some "I am angry", emotion := some "angry", intensity := none } =
        [.voiceConfig cfg, .error "Failed to generate voice"] ∧
      (generateVoice false (fun _ _ _ => some (.engineError "no audio device"))
          { text := some "I am angry", emotion := some "angry", intensity := none }).countP
        Event.isResult = 0 ∧
      (∀ other : SayEngine,
        (∃ err, other (finalText cfg "angry") cfg.voice cfg.rate = some err) →
        generateVoice false other
            { text := some "I am angry", emotion := some "angry", intensity := none } =
          generateVoice false (fun _ _ _ => some (.engineError "no audio device"))
            { text := some "I am angry", emotion := some "angry", intensity := none }) :=
  engine_failure_emits_config_then_error
    (fun _ _ _ => some (.engineError "no audio device")) "I am angry" "angry" none
    (by decide) ((mem_recognisedEmotions _).2 (by simp))
    (fun _ _ => ⟨_, rfl⟩)

/-- The realtime handler and the one-shot handler, run side by side: they take
the same branch on every request and every speech outcome. -/
theorem handlers_side_by_side (isServerTTSDisabled : Bool) (say : SayEngine)
    (data : GenerationRequest) :
    (generateVoice isServerTTSDisabled say data =
        [.error "Text and emotion are required"] ∧
      apiSpeak isServerTTSDisabled say data =
        { status := 400, body := .error "Text and emotion are required" }) ∨
    (generateVoice isServerTTSDisabled say data = [.error "Failed to generate voice"] ∧
      apiSpeak isServerTTSDisabled say data =
        { status := 500, body := .error "Failed to generate voice" }) ∨
    (∃ cfg, generateVoice isServerTTSDisabled say data =
        [.voiceConfig cfg, .error "Failed to generate voice"] ∧
      apiSpeak isServerTTSDisabled say data =
        { status := 500, body := .error "Failed to generate voice" }) ∨
    (∃ cfg r, generateVoice isServerTTSDisabled say data =
        [.voiceConfig cfg, .voiceGenerated r] ∧
      apiSpeak isServerTTSDisabled say data = { status := 200, body := .result r }) := by
  unfold generateVoice generateVoiceTry apiSpeak apiSpeakTry
  cases ht : truthy data.text with
  | none => left; exact ⟨rfl, rfl⟩
  | some text =>
    cases hem : truthy data.emotion with
    | none => left; exact ⟨rfl, rfl⟩
    | some emotion =>
      right
      dsimp only
      cases ha : applyVoiceModulation text emotion (some (data.intensity.getD 3)) with
      | error e => left; exact ⟨rfl, rfl⟩
      | ok cfg =>
        right
        dsimp only
        cases hsp : speakWithEmotion isServerTTSDisabled say cfg emotion with
        | error e => left; exact ⟨cfg, rfl, rfl⟩
        | ok u => right; exact ⟨cfg, _, rfl, rfl⟩

/-- C13: on every request body and every speech outcome the one-shot handler
answers 400 with `Text and emotion are required` exactly when the realtime
handler emits that error, answers 500 with `Failed to generate voice` exactly
when the realtime handler emits that error, and otherwise answers 200 with a
body equal to the payload of the realtime result event. -/
theorem one_shot_agrees_with_realtime (isServerTTSDisabled : Bool) (say : SayEngine)
    (data : GenerationRequest) :
    (apiSpeak isServerTTSDisabled say data =
        { status := 400, body := .error "Text and emotion are required" } ↔
      Event.error "Text and emotion are required" ∈
        generateVoice isServerTTSDisabled say data) ∧
    (apiSpeak isServerTTSDisabled say data =
        { status := 500, body := .error "Failed to generate voice" } ↔
      Event.error "Failed to generate voice" ∈
        generateVoice isServerTTSDisabled say data) ∧
    (∀ r, apiSpeak isServerTTSDisabled say data = { status := 200, body := .result r } ↔
      Event.voiceGenerated r ∈ generateVoice isServerTTSDisabled say data) ∧
    (apiSpeak isServerTTSDisabled say data =
        { status := 400, body := .error "Text and emotion are required" } ∨
      apiSpeak isServerTTSDisabled say data =
        { status := 500, body := .error "Failed to generate voice" } ∨
      ∃ r, apiSpeak isServerTTSDisabled say data = { status := 200, body := .result r }) := by
  rcases handlers_side_by_side isServerTTSDisabled say data with
    ⟨hg, ha⟩ | ⟨hg, ha⟩ | ⟨cfg, hg, ha⟩ | ⟨cfg, r, hg, ha⟩
  · rw [hg, ha]
    simp
  · rw [hg, ha]
    simp
  · rw [hg, ha]
    simp
  · rw [hg, ha]
    simp [eq_comm]

/-- The resolver throws on an emotion outside the recognised set. -/
theorem applyVoiceModulation_unrecognised (text emotion : String) (i : Option Int)
    (h : emotion ∉ recognisedEmotions) :
    applyVoiceModulation text emotion i = .error .typeError := by
  simp [applyVoiceModulation, lookup_unrecognised emotion h]

/-- The one-shot answer once the request is valid and the resolver throws. -/
theorem apiSpeak_unresolved (isServerTTSDisabled : Bool) (say : SayEngine)
    (text emotion : String) (i : Option Int) (e : JSError)
    (ht : text ≠ "") (he : emotion ≠ "")
    (hcfg : applyVoiceModulation text emotion i = .error e) :
    apiSpeak isServerTTSDisabled say
        { text := some text, emotion := some emotion, intensity := i } =
      { status := 500, body := .error "Failed to generate voice" } := by
  unfold apiSpeak apiSpeakTry
  simp only [truthy_some text ht, truthy_some emotion he, applyVoiceModulation_getD, hcfg]

/-- C14 (the claim fails at the emotion `robotic`): the resolver is invoked and
throws, the realtime handler emits `Failed to generate voice` and not
`Text and emotion are required`, and the one-shot handler answers 500, not
400. -/
theorem unknown_emotion_reaches_resolver :
    "robotic" ∉ recognisedEmotions ∧
    applyVoiceModulation "I am a robot" "robotic" (some 3) = .error .typeError ∧
    generateVoice true (fun _ _ _ => none)
        { text := some "I am a robot", emotion := some "robotic", intensity := some 3 } =
      [.error "Failed to generate voice"] ∧
    Event.error "Text and emotion are required" ∉
      generateVoice true (fun _ _ _ => none)
        { text := some "I am a robot", emotion := some "robotic", intensity := some 3 } ∧
    apiSpeak true (fun _ _ _ => none)
        { text := some "I am a robot", emotion := some "robotic", intensity := some 3 } =
      { status := 500, body := .error "Failed to generate voice" } := by
  refine ⟨by decide, rfl, rfl, ?_, rfl⟩
  have h : generateVoice true (fun _ _ _ => none)
      { text := some "I am a robot", emotion := some "robotic", intensity := some 3 } =
      [.error "Failed to generate voice"] := rfl
  rw [h]
  simp

/-- C14 (amended): for a request with non-empty text and a non-empty emotion
outside the recognised set, the resolver is invoked and throws; the realtime
handler emits only the error event `Failed to generate voice`, with no
configuration and no result event, and the one-shot handler answers 500 with
the same message. -/
theorem unknown_emotion_is_generic_failure (isServerTTSDisabled : Bool) (say : SayEngine)
    (text emotion : String) (i : Option Int)
    (ht : text ≠ "") (he : emotion ≠ "") (hun : emotion ∉ recognisedEmotions) :
    applyVoiceModulation text emotion i = .error .typeError ∧
    generateVoice isServerTTSDisabled say
        { text := some text, emotion := some emotion, intensity := i } =
      [.error "Failed to generate voice"] ∧
    (generateVoice isServerTTSDisabled say
        { text := some text, emotion := some emotion, intensity := i }).countP
      Event.isConfig = 0 ∧
    (generateVoice isServerTTSDisabled say
        { text := some text, emotion := some emotion, intensity := i }).countP
      Event.isResult = 0 ∧
    apiSpeak isServerTTSDisabled say
        { text := some text, emotion := some emotion, intensity := i } =
      { status := 500, body := .error "Failed to generate voice" } := by
  have hthrow := applyVoiceModulation_unrecognised text emotion i hun
  have hg := generateVoice_unresolved isServerTTSDisabled say text emotion i _ ht he hthrow
  refine ⟨hthrow, hg, ?_, ?_,
    apiSpeak_unresolved isServerTTSDisabled say text emotion i _ ht he hthrow⟩
  · rw [hg]
    rfl
  · rw [hg]
    rfl

/-- C14 (amended) at `{text: "This is dramatic", emotion: "dramatic"}` with
server speech enabled. -/
theorem unknown_emotion_is_generic_failure_witness :
    applyVoiceModulation "This is dramatic" "dramatic" none = .error .typeError ∧
    generateVoice false (fun _ _ _ => none)
        { text := some "This is dramatic", emotion := some "dramatic", intensity := none } =
      [.error "Failed to generate voice"] ∧
    (generateVoice false (fun _ _ _ => none)
        { text := some "This is dramatic", emotion := some "dramatic",
          intensity := none }).countP
      Event.isConfig = 0 ∧
    (generateVoice false (fun _ _ _ => none)
        { text := some "This is dramatic", emotion := some "dramatic",
          intensity := none }).countP
      Event.isResult = 0 ∧
    apiSpeak false (fun _ _ _ => none)
        { text := some "This is dramatic", emotion := some "dramatic", intensity := none } =
      { status := 500, body := .error "Failed to generate voice" } :=
  unknown_emotion_is_generic_failure false (fun _ _ _ => none) "This is dramatic"
    "dramatic" none (by decide) (by decide) (by decide)

/-! ## The client -/

/-- The `error` handler hands the message to `showNotification` and changes no
field of the client, `isProcessing` included. -/
theorem onError_keeps_state (s : ClientState) (error : String) :
    (Client.onError s error).1 = s ∧
    (Client.onError s error).2 = [.showNotification error "error"] :=
  ⟨rfl, rfl⟩

/-- C15 (the code after a request that the server answers with an error): the
client sends `{text: "Hello", emotion: "happy", intensity: 3}` and is
processing; the error event `Failed to generate voice` is shown but leaves
`isProcessing` true, and the next submission is refused as
`Already processing`. -/
theorem error_event_leaves_client_processing :
    (Client.generateVoice
        { selectedEmotion := "happy", intensity := 3, isConnected := true,
          isProcessing := false, serverTTSDisabled := false, lastVoiceConfig := none,
          textInput := "Hello", originalText := "", generateBtnDisabled := false }).1
      = { selectedEmotion := "happy", intensity := 3, isConnected := true,
          isProcessing := true, serverTTSDisabled := false, lastVoiceConfig := none,
          textInput := "Hello", originalText := "", generateBtnDisabled := true } ∧
    (Client.onError
        { selectedEmotion := "happy", intensity := 3, isConnected := true,
          isProcessing := true, serverTTSDisabled := false, lastVoiceConfig := none,
          textInput := "Hello", originalText := "", generateBtnDisabled := true }
        "Failed to generate voice").1.isProcessing = true ∧
    notifiedMessages (Client.onError
        { selectedEmotion := "happy", intensity := 3, isConnected := true,
          isProcessing := true, serverTTSDisabled := false, lastVoiceConfig := none,
          textInput := "Hello", originalText := "", generateBtnDisabled := true }
        "Failed to generate voice").2 = ["Failed to generate voice"] ∧
    (Client.generateVoice (Client.onError
        { selectedEmotion := "happy", intensity := 3, isConnected := true,
          isProcessing := true, serverTTSDisabled := false, lastVoiceConfig := none,
          textInput := "Hello", originalText := "", generateBtnDisabled := true }
        "Failed to generate voice").1).2 =
      [.showNotification "Already processing. Please wait..." "info"] := by
  refine ⟨?_, rfl, rfl, ?_⟩ <;> decide

/-- C16: the client's `generateVoice` sends a request if and only if the
trimmed text is non-empty, the client is connected and no request is in
flight; when it sends, it sends exactly one request with the trimmed text, the
selected emotion and the intensity, and sets `isProcessing`; otherwise, and in
particular whenever `isProcessing` is already true, it sends nothing and leaves
`isProcessing`, `isConnected` and `lastVoiceConfig` unchanged. -/
theorem client_sends_iff_ready (s : ClientState) :
    (sentRequests (Client.generateVoice s).2 ≠ [] ↔
      (trim s.textInput ≠ "" ∧ s.isConnected = true ∧ s.isProcessing = false)) ∧
    ((trim s.textInput ≠ "" ∧ s.isConnected = true ∧ s.isProcessing = false) →
      sentRequests (Client.generateVoice s).2 =
        [ { text := some (trim s.textInput)
            emotion := some s.selectedEmotion
            intensity := some s.intensity } ] ∧
      (Client.generateVoice s).1.isProcessing = true) ∧
    (¬ (trim s.textInput ≠ "" ∧ s.isConnected = true ∧ s.isProcessing = false) →
      sentRequests (Client.generateVoice s).2 = [] ∧
      (Client.generateVoice s).1.isProcessing = s.isProcessing ∧
      (Client.generateVoice s).1.isConnected = s.isConnected ∧
      (Client.generateVoice s).1.lastVoiceConfig = s.lastVoiceConfig) ∧
    (s.isProcessing = true →
      sentRequests (Client.generateVoice s).2 = [] ∧ (Client.generateVoice s).1 = s) := by
  unfold Client.generateVoice
  by_cases h1 : trim s.textInput = ""
  · simp [h1, sentRequests]
  · by_cases h2 : s.isConnected = true
    · by_cases h3 : s.isProcessing = true
      · simp [h1, h2, h3, sentRequests]
      · simp only [Bool.not_eq_true] at h3
        simp [h1, h2, h3, sentRequests, Client.setProcessingState]
    · simp only [Bool.not_eq_true] at h2
      by_cases h3 : s.isProcessing = true
      · simp [h1, h2, h3, sentRequests]
      · simp [h1, h2, sentRequests]

/-- C17: the `voiceGenerated` handler sets `isProcessing` to false, and calls
`speakInBrowser`, with the stored configuration, if and only if
`serverTTSDisabled` is true and a configuration has been stored; with
`serverTTSDisabled` false it triggers no local speech. -/
theorem client_result_event (s : ClientState) (result : GenerationResult) :
    (Client.onVoiceGenerated s result).1.isProcessing = false ∧
    (spokenConfigs (Client.onVoiceGenerated s result).2 ≠ [] ↔
      (s.serverTTSDisabled = true ∧ s.lastVoiceConfig ≠ none)) ∧
    (∀ cfg, s.serverTTSDisabled = true → s.lastVoiceConfig = some cfg →
      spokenConfigs (Client.onVoiceGenerated s result).2 = [cfg]) ∧
    (s.serverTTSDisabled = false →
      spokenConfigs (Client.onVoiceGenerated s result).2 = []) := by
  unfold Client.onVoiceGenerated Client.handleVoiceGenerated Client.setProcessingState
  cases hs : result.success <;> cases hd : s.serverTTSDisabled <;>
    cases hl : s.lastVoiceConfig <;> simp [hd, hl, spokenConfigs]

/-- C18: for every configuration, with any rational rate, pitch and volume
(zero, negative or very large) and with any of them missing, the utterance
built by `speakInBrowser` has a rate in [0.1, 10], a pitch in [0, 2] and a
volume in [0, 1]. -/
theorem utterance_is_clamped (voiceConfig : ReceivedConfig) :
    (0.1 ≤ (Client.utterance voiceConfig).rate ∧ (Client.utterance voiceConfig).rate ≤ 10) ∧
    (0 ≤ (Client.utterance voiceConfig).pitch ∧ (Client.utterance voiceConfig).pitch ≤ 2) ∧
    (0 ≤ (Client.utterance voiceConfig).volume ∧
      (Client.utterance voiceConfig).volume ≤ 1) ∧
    Client.speakInBrowser true voiceConfig = .ok (Client.utterance voiceConfig) := by
  refine ⟨⟨?_, ?_⟩, ⟨?_, ?_⟩, ⟨?_, ?_⟩, rfl⟩
  · exact le_max_left _ _
  · exact max_le (by norm_num) (min_le_left _ _)
  · exact le_max_left _ _
  · exact max_le (by norm_num) (min_le_left _ _)
  · exact le_max_left _ _
  · exact max_le (by norm_num) (min_le_left _ _)

/-- The clamp of `speakInBrowser` keeps a rate in [0.1, 10], a pitch in (0, 2]
and a volume in [0, 1]. -/
theorem utterance_keeps_in_range (text : String) (rate pitch volume : ℚ) :
    (0.1 ≤ rate → rate ≤ 10 →
      (Client.utterance
        { text := text, rate := some rate, pitch := some pitch, volume := some volume }).rate = rate) ∧
    (0 < pitch → pitch ≤ 2 →
      (Client.utterance
        { text := text, rate := some rate, pitch := some pitch, volume := some volume }).pitch = pitch) ∧
    (0 ≤ volume → volume ≤ 1 →
      (Client.utterance
        { text := text, rate := some rate, pitch := some pitch, volume := some volume }).volume = volume) := by
  refine ⟨?_, ?_, ?_⟩
  · intro h1 h2
    have h0 : rate ≠ 0 := by
      intro h
      rw [h] at h1
      norm_num at h1
    simp only [Client.utterance, orElse, h0, if_false]
    rw [min_eq_right h2, max_eq_right h1]
  · intro h1 h2
    have h0 : pitch ≠ 0 := ne_of_gt h1
    simp only [Client.utterance, orElse, h0, if_false]
    rw [min_eq_right h2, max_eq_right (le_of_lt h1)]
  · intro h1 h2
    simp only [Client.utterance, notNullOr]
    rw [min_eq_right h2, max_eq_right h1]

/-- C19 (the code at pitch 0): for the configuration
`{text: "Hello!", rate: 1.2, pitch: 0, volume: 0}` the utterance keeps the rate
1.2 and the volume 0, but its pitch is 1, not the configuration's 0, because
`voiceConfig.pitch || 1` takes 0 for a missing value. -/
theorem pitch_zero_becomes_one :
    (Client.utterance
      { text := "Hello!", rate := some 1.2, pitch := some 0, volume := some 0 }).rate = 1.2 ∧
    (Client.utterance
      { text := "Hello!", rate := some 1.2, pitch := some 0, volume := some 0 }).volume = 0 ∧
    (Client.utterance
      { text := "Hello!", rate := some 1.2, pitch := some 0, volume := some 0 }).pitch = 1 ∧
    (Client.utterance
      { text := "Hello!", rate := some 1.2, pitch := some 0, volume := some 0 }).pitch ≠ 0 := by
  refine ⟨?_, ?_, ?_, ?_⟩ <;> norm_num [Client.utterance, orElse, notNullOr]

/-- Every request the client's `generateVoice` sends carries a non-empty
text. -/
theorem client_sends_nonempty_text (s : ClientState) (request : GenerationRequest)
    (h : request ∈ sentRequests (Client.generateVoice s).2) :
    request.text = some (trim s.textInput) ∧ trim s.textInput ≠ "" := by
  unfold Client.generateVoice at h
  by_cases h1 : trim s.textInput = ""
  · simp [h1, sentRequests] at h
  · by_cases h2 : s.isConnected = true
    · by_cases h3 : s.isProcessing = true
      · simp [h1, h2, h3, sentRequests] at h
      · simp only [Bool.not_eq_true] at h3
        simp [h1, h2, h3, sentRequests] at h
        subst h
        exact ⟨rfl, h1⟩
    · simp only [Bool.not_eq_true] at h2
      simp [h1, h2, sentRequests] at h

theorem trim_replicate_a (n : Nat) :
    trim (String.mk (List.replicate n 'a')) = String.mk (List.replicate n 'a') := by
  have hdrop : ∀ m : Nat,
      (List.replicate m 'a').dropWhile isWhiteSpace = List.replicate m 'a' := by
    intro m
    cases m with
    | zero => rfl
    | succ k =>
      rw [List.replicate_succ, List.dropWhile_cons_of_neg (by decide)]
  unfold trim
  simp only [hdrop, List.reverse_replicate]

theorem jsLength_replicate_a (n : Nat) :
    jsLength (String.mk (List.replicate n 'a')) = n := by
  unfold jsLength
  induction n with
  | zero => rfl
  | succ k ih =>
    simp only [List.replicate_succ, List.map_cons, List.sum_cons] at ih ⊢
    rw [ih]
    have : (if 0x10000 ≤ ('a').toNat then 2 else 1) = 1 := by decide
    rw [this]
    omega

theorem replicate_a_ne_empty (n : Nat) : String.mk (List.replicate (n + 1) 'a') ≠ "" := by
  intro h
  have hd := congrArg String.data h
  simp [List.replicate_succ] at hd

/-- After the client has connected, entering a text of more than 500 code
units leaves the button disabled and changes nothing else. -/
theorem typeText_overlong (text : String) (h : 500 < jsLength text) :
    Client.typeText (Client.onConnectionChange Client.initial true) text =
      { selectedEmotion := "happy"
        intensity := 3
        isConnected := true
        isProcessing := false
        serverTTSDisabled := false
        lastVoiceConfig := none
        textInput := text
        originalText := ""
        generateBtnDisabled := true } := by
  have h2 : ¬ jsLength text ≤ 500 := by omega
  simp [Client.typeText, Client.handleTextInput, Client.onConnectionChange,
    Client.initial, h2]

/-- The shortcut sends the trimmed text of a connected, idle client whatever the
state of the button and the length of the text. -/
theorem keydownCtrlEnter_sends (s : ClientState) (h1 : trim s.textInput ≠ "")
    (h2 : s.isConnected = true) (h3 : s.isProcessing = false) :
    sentRequests (Client.keydownCtrlEnter s).2 =
      [ { text := some (trim s.textInput)
          emotion := some s.selectedEmotion
          intensity := some s.intensity } ] := by
  simp [Client.keydownCtrlEnter, Client.generateVoice, h1, h2, h3, sentRequests]

/-- C20 (the code at a text of 501 characters): after the client has connected
and the user has entered 501 letters, `handleTextInput` disables the button and
a click sends nothing, but the Ctrl/Cmd+Enter shortcut calls `generateVoice`,
which has no length check and sends a request whose text has 501
characters. -/
theorem shortcut_sends_overlong_text :
    jsLength (String.mk (List.replicate 501 'a')) = 501 ∧
    (Client.typeText (Client.onConnectionChange Client.initial true)
      (String.mk (List.replicate 501 'a'))).generateBtnDisabled = true ∧
    sentRequests (Client.clickGenerate
      (Client.typeText (Client.onConnectionChange Client.initial true)
        (String.mk (List.replicate 501 'a')))).2 = [] ∧
    sentRequests (Client.keydownCtrlEnter
      (Client.typeText (Client.onConnectionChange Client.initial true)
        (String.mk (List.replicate 501 'a')))).2 =
      [ { text := some (String.mk (List.replicate 501 'a'))
          emotion := some "happy"
          intensity := some 3 } ] := by
  have hlen := jsLength_replicate_a 501
  have htrim := trim_replicate_a 501
  have hne := replicate_a_ne_empty 500
  rw [typeText_overlong _ (by rw [hlen]; decide)]
  refine ⟨hlen, rfl, rfl, ?_⟩
  rw [keydownCtrlEnter_sends _ (by rw [htrim]; exact hne) rfl rfl]
  exact congrArg
    (fun t => [GenerationRequest.mk (some t) (some "happy") (some 3)]) htrim

/-! ## Play again -/

/-- C21: `playAgain` with a non-empty displayed original text: when
`serverTTSDisabled` is true and a configuration is stored it calls
`speakInBrowser` with that configuration, sends no request and leaves the
client, `isProcessing` included, unchanged; when `serverTTSDisabled` is false it
puts the original text into the text box and runs `generateVoice`, so it sends
exactly when that text trims to a non-empty one, the client is connected and no
request is in flight. -/
theorem playAgain_behaviour (s : ClientState) (horig : s.originalText ≠ "") :
    (∀ cfg, s.serverTTSDisabled = true → s.lastVoiceConfig = some cfg →
      (Client.playAgain s).2 = [.speakInBrowser cfg] ∧
      sentRequests (Client.playAgain s).2 = [] ∧
      (Client.playAgain s).1 = s) ∧
    (s.serverTTSDisabled = false →
      Client.playAgain s = Client.generateVoice { s with textInput := s.originalText } ∧
      spokenConfigs (Client.playAgain s).2 = [] ∧
      (sentRequests (Client.playAgain s).2 ≠ [] ↔
        (trim s.originalText ≠ "" ∧ s.isConnected = true ∧ s.isProcessing = false)) ∧
      (s.isConnected = false ∨ s.isProcessing = true →
        sentRequests (Client.playAgain s).2 = [] ∧
        (Client.playAgain s).1.isProcessing = s.isProcessing)) := by
  have hgen : ∀ t : ClientState,
      spokenConfigs (Client.generateVoice t).2 = [] ∧
      (sentRequests (Client.generateVoice t).2 ≠ [] ↔
        (trim t.textInput ≠ "" ∧ t.isConnected = true ∧ t.isProcessing = false)) ∧
      (t.isConnected = false ∨ t.isProcessing = true →
        sentRequests (Client.generateVoice t).2 = [] ∧
        (Client.generateVoice t).1.isProcessing = t.isProcessing) := by
    intro t
    unfold Client.generateVoice
    by_cases h1 : trim t.textInput = ""
    · simp [h1, sentRequests, spokenConfigs]
    · cases h2 : t.isConnected <;> cases h3 : t.isProcessing <;>
        simp [h1, h2, h3, sentRequests, spokenConfigs, Client.setProcessingState]
  constructor
  · intro cfg hd hl
    simp [Client.playAgain, horig, hd, hl, sentRequests]
  · intro hd
    have hplay : Client.playAgain s =
        Client.generateVoice { s with textInput := s.originalText } := by
      simp [Client.playAgain, horig, hd]
    rw [hplay]
    exact ⟨rfl, hgen _⟩

/-- C21 at a connected, idle client that shows the original text `Hello world`
and holds a configuration, with server speech disabled. -/
theorem playAgain_behaviour_witness :
    (Client.playAgain
      { Client.initial with
        isConnected := true, serverTTSDisabled := true, originalText := "Hello world",
        lastVoiceConfig := some { text := "Hello world!", rate := some 1.2,
                                  pitch := some 1.3, volume := some 1.0 } }).2 =
      [.speakInBrowser { text := "Hello world!", rate := some 1.2,
                         pitch := some 1.3, volume := some 1.0 }] ∧
    sentRequests (Client.playAgain
      { Client.initial with
        isConnected := true, serverTTSDisabled := true, originalText := "Hello world",
        lastVoiceConfig := some { text := "Hello world!", rate := some 1.2,
                                  pitch := some 1.3, volume := some 1.0 } }).2 = [] ∧
    (Client.playAgain
      { Client.initial with
        isConnected := true, serverTTSDisabled := true, originalText := "Hello world",
        lastVoiceConfig := some { text := "Hello world!", rate := some 1.2,
                                  pitch := some 1.3, volume := some 1.0 } }).1 =
      { Client.initial with
        isConnected := true, serverTTSDisabled := true, originalText := "Hello world",
        lastVoiceConfig := some { text := "Hello world!", rate := some 1.2,
                                  pitch := some 1.3, volume := some 1.0 } } :=
  (playAgain_behaviour
    { Client.initial with
      isConnected := true, serverTTSDisabled := true, originalText := "Hello world",
      lastVoiceConfig := some { text := "Hello world!", rate := some 1.2,
                                pitch := some 1.3, volume := some 1.0 } }
    (by decide)).1
    { text := "Hello world!", rate := some 1.2, pitch := some 1.3, volume := some 1.0 }
    rfl rfl

/-! ## Repeated transformation -/

theorem happySpec_endsWith (text : String) : endsWith (happySpec text) "!" = true := by
  rw [endsWith_iff]
  unfold happySpec
  by_cases h : endsWith text "!" = true
  · obtain ⟨init, hinit⟩ := (endsWith_iff _ _).1 h
    refine ⟨init.map (fun ch => if ch = '.' ∨ ch = ',' then '!' else ch), ?_⟩
    simp [h, hinit]
  · refine ⟨text.data.map (fun ch => if ch = '.' ∨ ch = ',' then '!' else ch), ?_⟩
    simp [h]

/-- Replacing `.` and `,` by `!` a second time changes nothing. -/
theorem map_punct_twice (l : List Char) :
    (l.map (fun ch => if ch = '.' ∨ ch = ',' then '!' else ch)).map
        (fun ch => if ch = '.' ∨ ch = ',' then '!' else ch) =
      l.map (fun ch => if ch = '.' ∨ ch = ',' then '!' else ch) := by
  rw [List.map_map]
  apply List.map_congr_left
  intro ch _
  by_cases h : ch = '.' ∨ ch = ','
  · simp [h]
  · simp [h]

/-- On a text that ends with `!` nothing is appended. -/
theorem happySpec_of_endsWith (text : String) (h : endsWith text "!" = true) :
    happySpec text =
      ⟨text.data.map (fun ch => if ch = '.' ∨ ch = ',' then '!' else ch)⟩ := by
  unfold happySpec
  simp only [h, if_true]

/-- The happy transformation applied to its own output returns that output. -/
theorem happy_idempotent (text : String) (i j : Int) :
    happy (happy text i) j = happy text i := by
  rw [happy_eq_happySpec, happy_eq_happySpec]
  rw [happySpec_of_endsWith (happySpec text) (happySpec_endsWith text)]
  apply String.ext
  show List.map _ (happySpec text).data = (happySpec text).data
  unfold happySpec
  exact map_punct_twice _

/-- C22: the happy transformation never double-appends: on a text that already
ends with `!` it appends nothing (the output has the length of the input and is
the input with `.` and `,` replaced), and for every text applying it to its own
output returns that output. -/
theorem happy_never_double_appends (text : String) (i j : Int) :
    (endsWith text "!" = true →
      happy text i =
        ⟨text.data.map (fun ch => if ch = '.' ∨ ch = ',' then '!' else ch)⟩ ∧
      (happy text i).length = text.length) ∧
    happy (happy text i) j = happy text i := by
  refine ⟨?_, happy_idempotent text i j⟩
  intro h
  rw [happy_eq_happySpec, happySpec_of_endsWith text h]
  refine ⟨rfl, ?_⟩
  show (List.map _ text.data).length = text.data.length
  simp

/-- C23 (the claim fails for a wrapper): applying `shock` to its own output for
`Hi` wraps it a second time. -/
theorem shock_is_not_idempotent :
    shock "Hi" 3 = "Oh my! Hi! Wow!" ∧
    shock (shock "Hi" 3) 3 = "Oh my! Oh my! Hi! Wow!! Wow!" ∧
    shock (shock "Hi" 3) 3 ≠ shock "Hi" 3 := by
  decide

/-- A text wrapped between a prefix and a non-empty suffix differs from the
text. -/
theorem wrap_ne (pre post text : String) (h : 0 < post.length) :
    pre ++ text ++ post ≠ text := by
  intro heq
  have hlen := congrArg String.length heq
  simp only [String.length_append] at hlen
  omega

/-- C23 (amended): the happy transformation is idempotent; the four wrappers
`shock`, `angry`, `sleepy` and `thoughtful` are not: applied to its own output
each wraps it a second time, so the second output differs from the first for
every text. -/
theorem happy_idempotent_wrappers_not (text : String) (i j : Int) :
    happy (happy text i) j = happy text i ∧
    (shock (shock text i) j = "Oh my! " ++ shock text i ++ "! Wow!" ∧
      shock (shock text i) j ≠ shock text i) ∧
    (angry (angry text i) j = "Listen! " ++ angry text i ++ "! Now!" ∧
      angry (angry text i) j ≠ angry text i) ∧
    (sleepy (sleepy text i) j = "Yawn... " ++ sleepy text i ++ "... zzz..." ∧
      sleepy (sleepy text i) j ≠ sleepy text i) ∧
    (thoughtful (thoughtful text i) j = "Hmm... " ++ thoughtful text i ++ "... I think..." ∧
      thoughtful (thoughtful text i) j ≠ thoughtful text i) := by
  refine ⟨happy_idempotent text i j, ⟨rfl, ?_⟩, ⟨rfl, ?_⟩, ⟨rfl, ?_⟩, ⟨rfl, ?_⟩⟩
  · exact wrap_ne "Oh my! " "! Wow!" (shock text i) (by decide)
  · exact wrap_ne "Listen! " "! Now!" (angry text i) (by decide)
  · exact wrap_ne "Yawn... " "... zzz..." (sleepy text i) (by decide)
  · exact wrap_ne "Hmm... " "... I think..." (thoughtful text i) (by decide)

/-! ## The server-speech flag -/

/-- C24 (the claim fails when a variable is set to another value): with
`DISABLE_SERVER_TTS=true` and `RENDER=1`, both non-empty, and `NODE_ENV` unset,
the flag is false and `GET /api/config` reports false. -/
theorem flag_needs_exact_values :
    isServerTTSDisabled
      { DISABLE_SERVER_TTS := some "true", RENDER := some "1", NODE_ENV := none } = false ∧
    (apiConfig
      { DISABLE_SERVER_TTS := some "true", RENDER := some "1",
        NODE_ENV := none }).serverTTSDisabled = false ∧
    some "true" ≠ some "" ∧ some "1" ≠ some "" := by
  decide

/-- C24 (amended): the flag is true exactly when `DISABLE_SERVER_TTS` is the
string `1`, or `RENDER` is the string `true`, or `NODE_ENV` is the string
`production`; it is false when none of the three is set; and
`GET /api/config` reports exactly this flag. -/
theorem flag_iff_exact_values (env : Environment) :
    (isServerTTSDisabled env = true ↔
      (env.DISABLE_SERVER_TTS = some "1" ∨ env.RENDER = some "true" ∨
        env.NODE_ENV = some "production")) ∧
    isServerTTSDisabled { DISABLE_SERVER_TTS := none, RENDER := none, NODE_ENV := none } =
      false ∧
    (apiConfig env).serverTTSDisabled = isServerTTSDisabled env := by
  refine ⟨?_, rfl, rfl⟩
  simp [isServerTTSDisabled, or_assoc]

/-! ## The text handed to the speech engine -/

/-- C25 (the claim fails on the specification's own example): for
`{text: "Hello world", emotion: "happy", intensity: 3}` the configuration's text
is `Hello world!` but the engine is called with `Hello world ! `.  An engine
that fails exactly on `Hello world!` is therefore never failed, and one that
fails exactly on `Hello world ! ` is. -/
theorem engine_gets_spaced_text :
    applyVoiceModulation "Hello world" "happy" (some 3) =
      .ok { text := "Hello world!", rate := 1.2, pitch := 1.3, volume := 1.0,
            voice := "Microsoft David Desktop", intensity := 3 } ∧
    finalText
      { text := "Hello world!", rate := 1.2, pitch := 1.3, volume := 1.0,
        voice := "Microsoft David Desktop", intensity := 3 } "happy" = "Hello world ! " ∧
    "Hello world ! " ≠ "Hello world!" ∧
    (generateVoice false
        (fun text _ _ => if text = "Hello world!" then some .typeError else none)
        { text := some "Hello world", emotion := some "happy", intensity := some 3 }).countP
      Event.isResult = 1 ∧
    (generateVoice false
        (fun text _ _ => if text = "Hello world ! " then some .typeError else none)
        { text := some "Hello world", emotion := some "happy", intensity := some 3 }).countP
      Event.isResult = 0 := by
  refine ⟨rfl, by decide, by decide, ?_, ?_⟩
  · rw [generateVoice_resolved false _ "Hello world" "happy" (some 3) _ (by decide)
      (by decide) rfl]
    rfl
  · rw [generateVoice_resolved false _ "Hello world" "happy" (some 3) _ (by decide)
      (by decide) rfl]
    rfl

/-- C25 (amended): with server speech enabled, for a request with non-empty text
and a recognised emotion the engine is called once, with the configuration's
voice name and rate and with the configuration's text after the handler's
emotion switch has spaced out its punctuation (every `!` becomes ` ! ` for happy
and angry and ` !!! ` for shock, every `...` becomes ` ... ` for sad, sleepy and
thoughtful); the outcome of that call alone decides between the result event,
which reports the unspaced text, and the error event. -/
theorem engine_call_arguments (say : SayEngine) (text emotion : String) (i : Option Int)
    (ht : text ≠ "") (hemo : emotion ∈ recognisedEmotions) :
    ∃ cfg, applyVoiceModulation text emotion i = .ok cfg ∧
      speakWithEmotion false say cfg emotion =
        (match say (finalText cfg emotion) cfg.voice cfg.rate with
          | some err => .error err
          | none => .ok ()) ∧
      generateVoice false say
          { text := some text, emotion := some emotion, intensity := i } =
        (match say (finalText cfg emotion) cfg.voice cfg.rate with
          | some _ => [.voiceConfig cfg, .error "Failed to generate voice"]
          | none =>
            [ .voiceConfig cfg,
              .voiceGenerated
                { success := true
                  emotion := emotion
                  intensity := i.getD 3
                  originalText := text
                  modifiedText := cfg.text } ]) ∧
      (emotion = "happy" ∨ emotion = "angry" →
        finalText cfg emotion = replaceAll cfg.text "!" " ! ") ∧
      (emotion = "shock" → finalText cfg emotion = replaceAll cfg.text "!" " !!! ") ∧
      (emotion = "sad" ∨ emotion = "sleepy" ∨ emotion = "thoughtful" →
        finalText cfg emotion = replaceAll cfg.text "..." " ... ") := by
  obtain ⟨settings, entry3, modify, _, _, hm⟩ := recognised_lookups emotion hemo
  obtain ⟨cfg, hcfg, _, _⟩ := resolve_text text emotion i modify hemo hm
  refine ⟨cfg, hcfg, rfl, ?_, ?_, ?_, ?_⟩
  · rw [generateVoice_resolved false say text emotion i cfg ht
      (recognised_ne_empty emotion hemo) hcfg]
    unfold speakWithEmotion
    cases say (finalText cfg emotion) cfg.voice cfg.rate <;> rfl
  · rintro (h | h) <;> subst h <;> rfl
  · rintro h
    subst h
    rfl
  · rintro (h | h | h) <;> subst h <;> rfl

/-- C25 (amended) at `{text: "What a surprise", emotion: "shock"}` with an
engine that succeeds. -/
theorem engine_call_arguments_witness :
    ∃ cfg, applyVoiceModulation "What a surprise" "shock" none = .ok cfg ∧
      speakWithEmotion false (fun _ _ _ => none) cfg "shock" =
        (match (fun _ _ _ => none : SayEngine) (finalText cfg "shock") cfg.voice cfg.rate with
          | some err => .error err
          | none => .ok ()) ∧
      generateVoice false (fun _ _ _ => none)
          { text := some "What a surprise", emotion := some "shock", intensity := none } =
        (match (fun _ _ _ => none : SayEngine) (finalText cfg "shock") cfg.voice cfg.rate with
          | some _ => [.voiceConfig cfg, .error "Failed to generate voice"]
          | none =>
            [ .voiceConfig cfg,
              .voiceGenerated
                { success := true
                  emotion := "shock"
                  intensity := (none : Option Int).getD 3
                  originalText := "What a surprise"
                  modifiedText := cfg.text } ]) ∧
      ("shock" = "happy" ∨ "shock" = "angry" →
        finalText cfg "shock" = replaceAll cfg.text "!" " ! ") ∧
      ("shock" = "shock" → finalText cfg "shock" = replaceAll cfg.text "!" " !!! ") ∧
      ("shock" = "sad" ∨ "shock" = "sleepy" ∨ "shock" = "thoughtful" →
        finalText cfg "shock" = replaceAll cfg.text "..." " ... ") :=
  engine_call_arguments (fun _ _ _ => none) "What a surprise" "shock" none
    (by decide) ((mem_recognisedEmotions _).2 (by simp))

/-! ## The shape of the sad transformation's output -/

/-- The expansion of `sad` leaves no `!`. -/
theorem expand_no_bang (l : List Char) :
    '!' ∉ l.flatMap (fun ch =>
          if ch = '!' then ['.', '.', '.', '.', '.', '.', '.', '.', '.']
          else if ch = '.' then ['.', '.', '.'] else [ch]) := by
  induction l with
  | nil => simp
  | cons x xs ih =>
    rw [List.flatMap_cons, List.mem_append, not_or]
    refine ⟨?_, ih⟩
    by_cases h1 : x = '!'
    · subst h1
      decide
    · by_cases h2 : x = '.'
      · subst h2
        decide
      · simp only [h1, h2, if_false, List.mem_singleton]
        exact fun h => h1 h.symm

/-- The dots of the expansion of `sad`: nine for each `!` and three for each
`.` of the expanded text. -/
theorem expand_count_dots (l : List Char) :
    (l.flatMap (fun ch =>
          if ch = '!' then ['.', '.', '.', '.', '.', '.', '.', '.', '.']
          else if ch = '.' then ['.', '.', '.'] else [ch])).count '.' =
      9 * l.count '!' + 3 * l.count '.' := by
  induction l with
  | nil => simp
  | cons x xs ih =>
    rw [List.flatMap_cons, List.count_append, ih]
    by_cases h1 : x = '!'
    · subst h1
      have e1 : (if '!' = '!' then ['.', '.', '.', '.', '.', '.', '.', '.', '.']
          else if '!' = '.' then ['.', '.', '.'] else ['!']).count '.' = 9 := by decide
      have e2 : ('!' :: xs).count '!' = xs.count '!' + 1 := by simp
      have e3 : ('!' :: xs).count '.' = xs.count '.' := by
        rw [List.count_cons]
        simp
      rw [e1, e2, e3]
      omega
    · by_cases h2 : x = '.'
      · subst h2
        have e1 : (if '.' = '!' then ['.', '.', '.', '.', '.', '.', '.', '.', '.']
            else if '.' = '.' then ['.', '.', '.'] else ['.']).count '.' = 3 := by decide
        have e2 : ('.' :: xs).count '!' = xs.count '!' := by
          rw [List.count_cons]
          simp
        have e3 : ('.' :: xs).count '.' = xs.count '.' + 1 := by simp
        rw [e1, e2, e3]
        omega
      · have e1 : (if x = '!' then ['.', '.', '.', '.', '.', '.', '.', '.', '.']
            else if x = '.' then ['.', '.', '.'] else [x]).count '.' = 0 := by
          simp only [h1, h2, if_false]
          rw [List.count_cons, List.count_nil]
          simp [h2]
        have e2 : (x :: xs).count '!' = xs.count '!' := by
          rw [List.count_cons]
          simp [h1]
        have e3 : (x :: xs).count '.' = xs.count '.' := by
          rw [List.count_cons]
          simp [h2]
        rw [e1, e2, e3]
        omega

/-- After the append step of `sad` the text ends with three dots. -/
theorem sad_appended_ends (text : String) :
    ∃ init, (if endsWith text "..." then text else text ++ "...").data =
      init ++ ['.', '.', '.'] := by
  by_cases h : endsWith text "..." = true
  · obtain ⟨init, hinit⟩ := (endsWith_iff _ _).1 h
    exact ⟨init, by simp only [h, if_true]; exact hinit⟩
  · exact ⟨text.data, by simp only [h, Bool.false_eq_true, if_false, String.data_append]⟩

/-- C26: for every text the output of the sad transformation contains no `!`,
ends with `...`, and has a number of dots that is a multiple of 3 and at least
9; it is never the input followed by exactly three dots. -/
theorem sad_output_shape (text : String) (intensity : Int) :
    '!' ∉ (sad text intensity).data ∧
    endsWith (sad text intensity) "..." = true ∧
    3 ∣ (sad text intensity).data.count '.' ∧
    9 ≤ (sad text intensity).data.count '.' ∧
    sad text intensity ≠ text ++ "..." := by
  obtain ⟨init, hinit⟩ := sad_appended_ends text
  have hcount := expand_count_dots (if endsWith text "..." then text else text ++ "...").data
  rw [← sad_eq_flatMap text intensity] at hcount
  have hdots : (if endsWith text "..." then text else text ++ "...").data.count '.' =
      init.count '.' + 3 := by
    rw [hinit, List.count_append]
    have : (['.', '.', '.'] : List Char).count '.' = 3 := by decide
    rw [this]
  refine ⟨?_, ?_, ?_, ?_, ?_⟩
  · rw [sad_eq_flatMap]
    exact expand_no_bang _
  · rw [endsWith_iff]
    refine ⟨init.flatMap (fun ch =>
          if ch = '!' then ['.', '.', '.', '.', '.', '.', '.', '.', '.']
          else if ch = '.' then ['.', '.', '.'] else [ch]) ++ ['.', '.', '.', '.', '.', '.'], ?_⟩
    rw [sad_eq_flatMap, hinit, List.flatMap_append]
    simp
  · rw [hcount]
    omega
  · rw [hcount, hdots]
    omega
  · intro heq
    have hc := congrArg (fun t : String => t.data.count '.') heq
    simp only [String.data_append, List.count_append] at hc
    have h3 : ("...".data).count '.' = 3 := by decide
    rw [hcount, h3] at hc
    by_cases h : endsWith text "..." = true
    · simp only [h, if_true] at hdots
      rw [h] at hc
      simp only [if_true] at hc
      omega
    · have hd2 : (text ++ "...").data.count '.' = text.data.count '.' + 3 := by
        rw [String.data_append, List.count_append, h3]
      simp only [h, Bool.false_eq_true, if_false] at hc
      rw [hd2] at hc
      omega

/-! ## The parameter tables -/

theorem lookup_mem {α β : Type} [BEq α] [LawfulBEq α] (k : α) (v : β) (l : List (α × β))
    (h : l.lookup k = some v) : (k, v) ∈ l := by
  induction l with
  | nil => simp at h
  | cons p ps ih =>
    obtain ⟨k2, v2⟩ := p
    rw [List.lookup_cons] at h
    by_cases hk : (k == k2) = true
    · rw [hk] at h
      have hkk : k = k2 := by simpa using hk
      cases h
      subst hkk
      exact List.mem_cons_self _ _
    · simp only [Bool.not_eq_true] at hk
      rw [hk] at h
      exact List.mem_cons_of_mem _ (ih h)

/-- An emotion with a settings object is a recognised one. -/
theorem recognised_of_lookup (emotion : String) (settings : EmotionSettings)
    (hs : voiceSettings.lookup emotion = some settings) : emotion ∈ recognisedEmotions := by
  by_contra h
  rw [lookup_unrecognised emotion h] at hs
  cases hs

/-- Every entry of every intensity table has a rate in [0.1, 10], a pitch in
(0, 2] and a volume that is not negative. -/
theorem table_bounds (emotion : String) (settings : EmotionSettings) (level : Int)
    (entry : IntensitySettings)
    (hs : voiceSettings.lookup emotion = some settings)
    (he : (level, entry) ∈ settings.intensity) :
    (0.1 ≤ entry.rate ∧ entry.rate ≤ 10) ∧ (0 < entry.pitch ∧ entry.pitch ≤ 2) ∧
      0 ≤ entry.volume := by
  have hemo := recognised_of_lookup emotion settings hs
  rw [mem_recognisedEmotions] at hemo
  rcases hemo with rfl | rfl | rfl | rfl | rfl | rfl
  all_goals
    have hs2 := Option.some.inj (Eq.trans (Eq.symm (by rfl)) hs)
    subst hs2
    simp only [List.mem_cons, Prod.mk.injEq, List.mem_nil_iff, or_false] at he
    rcases he with ⟨_, rfl⟩ | ⟨_, rfl⟩ | ⟨_, rfl⟩ | ⟨_, rfl⟩ | ⟨_, rfl⟩
    all_goals norm_num

/-- The parameters the resolver returns are those of an entry of the emotion's
intensity table, and the voice is the base profile's. -/
theorem resolved_entry (text emotion : String) (i : Option Int) (cfg : VoiceParameters)
    (h : applyVoiceModulation text emotion i = .ok cfg) :
    ∃ settings level entry, voiceSettings.lookup emotion = some settings ∧
      (level, entry) ∈ settings.intensity ∧
      cfg.rate = entry.rate ∧ cfg.pitch = entry.pitch ∧ cfg.volume = entry.volume ∧
      cfg.voice = settings.base.voice := by
  unfold applyVoiceModulation at h
  dsimp only at h
  split at h
  · cases h
  · rename_i settings hs
    split at h
    · cases h
    · split at h
      · cases h
      · rename_i entry hentry
        cases h
        unfold intensityEntry at hentry
        split at hentry
        · rename_i e hl
          cases hentry
          exact ⟨settings, _, _, hs, lookup_mem _ _ _ hl, rfl, rfl, rfl, rfl⟩
        · exact ⟨settings, _, _, hs, lookup_mem _ _ _ hentry, rfl, rfl, rfl, rfl⟩

/-- C28: for every configuration the resolver produces for a recognised emotion
and any intensity, `speakInBrowser` uses the rate and the pitch unchanged, the
rate lying in [0.1, 10] and the pitch in (0, 2], and uses the smaller of the
volume and 1; the utterance differs from the configuration only in a volume
above 1. -/
theorem table_configurations_clamp_only_volume (text emotion : String) (i : Option Int)
    (hemo : emotion ∈ recognisedEmotions) :
    ∃ cfg, applyVoiceModulation text emotion i = .ok cfg ∧
      (0.1 ≤ cfg.rate ∧ cfg.rate ≤ 10) ∧ (0 < cfg.pitch ∧ cfg.pitch ≤ 2) ∧
      (Client.utterance cfg.toReceived).text = cfg.text ∧
      (Client.utterance cfg.toReceived).rate = cfg.rate ∧
      (Client.utterance cfg.toReceived).pitch = cfg.pitch ∧
      (Client.utterance cfg.toReceived).volume = min cfg.volume 1 ∧
      ((Client.utterance cfg.toReceived).volume ≠ cfg.volume ↔ 1 < cfg.volume) := by
  obtain ⟨settings0, entry3, modify, _, _, hm⟩ := recognised_lookups emotion hemo
  obtain ⟨cfg, hcfg, _, _⟩ := resolve_text text emotion i modify hemo hm
  obtain ⟨settings, level, entry, hs, hmem, hr, hp, hv, _⟩ :=
    resolved_entry text emotion i cfg hcfg
  obtain ⟨⟨hr1, hr2⟩, ⟨hp1, hp2⟩, hv1⟩ := table_bounds emotion settings level entry hs hmem
  rw [← hr] at hr1 hr2
  rw [← hp] at hp1 hp2
  rw [← hv] at hv1
  have hkeep := utterance_keeps_in_range cfg.text cfg.rate cfg.pitch cfg.volume
  have hvol : (Client.utterance cfg.toReceived).volume = min cfg.volume 1 := by
    show max 0 (min 1 cfg.volume) = min cfg.volume 1
    rw [min_comm, max_eq_right (le_min hv1 (by norm_num))]
  refine ⟨cfg, hcfg, ⟨hr1, hr2⟩, ⟨hp1, hp2⟩, rfl, hkeep.1 hr1 hr2, hkeep.2.1 hp1 hp2,
    hvol, ?_⟩
  rw [hvol]
  constructor
  · intro hne
    by_contra hle
    exact hne (min_eq_left (not_lt.1 hle))
  · intro hlt heq
    rw [min_eq_right (le_of_lt hlt)] at heq
    rw [← heq] at hlt
    exact lt_irrefl _ hlt

/-- C28 at `{text: "What a surprise", emotion: "shock", intensity: 5}`, whose
volume 1.4 is clamped to 1. -/
theorem table_configurations_clamp_only_volume_witness :
    ∃ cfg, applyVoiceModulation "What a surprise" "shock" (some 5) = .ok cfg ∧
      (0.1 ≤ cfg.rate ∧ cfg.rate ≤ 10) ∧ (0 < cfg.pitch ∧ cfg.pitch ≤ 2) ∧
      (Client.utterance cfg.toReceived).text = cfg.text ∧
      (Client.utterance cfg.toReceived).rate = cfg.rate ∧
      (Client.utterance cfg.toReceived).pitch = cfg.pitch ∧
      (Client.utterance cfg.toReceived).volume = min cfg.volume 1 ∧
      ((Client.utterance cfg.toReceived).volume ≠ cfg.volume ↔ 1 < cfg.volume) :=
  table_configurations_clamp_only_volume "What a surprise" "shock" (some 5)
    ((mem_recognisedEmotions _).2 (by simp))

/-- C29: for two in-range intensities `a < b` the resolved rate, pitch and
volume are each strictly larger at `b` for happy, shock and angry and strictly
smaller at `b` for sad, sleepy and thoughtful; so two different in-range
intensities never resolve to the same rate, pitch and volume. -/
theorem tables_strictly_monotone (text emotion : String) (a b : Int)
    (hemo : emotion ∈ recognisedEmotions) (ha : 1 ≤ a) (hab : a < b) (hb : b ≤ 5) :
    ∃ cfgA cfgB, applyVoiceModulation text emotion (some a) = .ok cfgA ∧
      applyVoiceModulation text emotion (some b) = .ok cfgB ∧
      (emotion = "happy" ∨ emotion = "shock" ∨ emotion = "angry" →
        cfgA.rate < cfgB.rate ∧ cfgA.pitch < cfgB.pitch ∧ cfgA.volume < cfgB.volume) ∧
      (emotion = "sad" ∨ emotion = "sleepy" ∨ emotion = "thoughtful" →
        cfgB.rate < cfgA.rate ∧ cfgB.pitch < cfgA.pitch ∧ cfgB.volume < cfgA.volume) ∧
      (cfgA.rate, cfgA.pitch, cfgA.volume) ≠ (cfgB.rate, cfgB.pitch, cfgB.volume) := by
  rw [mem_recognisedEmotions] at hemo
  have hA : a = 1 ∨ a = 2 ∨ a = 3 ∨ a = 4 := by omega
  have hB : b = 2 ∨ b = 3 ∨ b = 4 ∨ b = 5 := by omega
  rcases hemo with rfl | rfl | rfl | rfl | rfl | rfl <;>
    rcases hA with rfl | rfl | rfl | rfl <;>
    rcases hB with rfl | rfl | rfl | rfl <;>
    first
    | (exfalso; omega)
    | (refine ⟨_, _, rfl, rfl, ?_, ?_, ?_⟩ <;>
        first
        | (intro h; have h1 := congrArg Prod.fst h; norm_num at h1)
        | (intro h; exact absurd h (by decide))
        | (intro _; norm_num))

/-- C29 at the emotion `sad` and the intensities 2 and 5. -/
theorem tables_strictly_monotone_witness :
    ∃ cfgA cfgB, applyVoiceModulation "I am sad" "sad" (some 2) = .ok cfgA ∧
      applyVoiceModulation "I am sad" "sad" (some 5) = .ok cfgB ∧
      ("sad" = "happy" ∨ "sad" = "shock" ∨ "sad" = "angry" →
        cfgA.rate < cfgB.rate ∧ cfgA.pitch < cfgB.pitch ∧ cfgA.volume < cfgB.volume) ∧
      ("sad" = "sad" ∨ "sad" = "sleepy" ∨ "sad" = "thoughtful" →
        cfgB.rate < cfgA.rate ∧ cfgB.pitch < cfgA.pitch ∧ cfgB.volume < cfgA.volume) ∧
      (cfgA.rate, cfgA.pitch, cfgA.volume) ≠ (cfgB.rate, cfgB.pitch, cfgB.volume) :=
  tables_strictly_monotone "I am sad" "sad" 2 5
    ((mem_recognisedEmotions _).2 (by simp)) (by decide) (by decide) (by decide)

/-- For a recognised emotion the level-3 entry repeats the base profile, and the
base voice is `Microsoft David Desktop`. -/
theorem level3_eq_base (emotion : String) (settings : EmotionSettings)
    (entry3 : IntensitySettings)
    (hs : voiceSettings.lookup emotion = some settings)
    (h3 : settings.intensity.lookup 3 = some entry3) :
    entry3.rate = settings.base.rate ∧ entry3.pitch = settings.base.pitch ∧
      entry3.volume = settings.base.volume ∧
      settings.base.voice = "Microsoft David Desktop" := by
  have hemo := recognised_of_lookup emotion settings hs
  rw [mem_recognisedEmotions] at hemo
  rcases hemo with rfl | rfl | rfl | rfl | rfl | rfl
  all_goals
    have hs2 := Option.some.inj (Eq.trans (Eq.symm (by rfl)) hs)
    subst hs2
    have h32 := Option.some.inj (Eq.trans (Eq.symm (by rfl)) h3)
    subst h32
    exact ⟨rfl, rfl, rfl, rfl⟩

/-- C30: for every recognised emotion the level-3 entry of the intensity table
has the rate, pitch and volume of the base profile, so the parameters resolved
for an absent or out-of-range intensity are the base profile's; and for every
intensity the resolved voice name is the base profile's,
`Microsoft David Desktop`. -/
theorem level3_is_base_profile (text emotion : String) (i : Option Int)
    (hemo : emotion ∈ recognisedEmotions) :
    ∃ settings entry3 cfg,
      voiceSettings.lookup emotion = some settings ∧
      settings.intensity.lookup 3 = some entry3 ∧
      entry3.rate = settings.base.rate ∧ entry3.pitch = settings.base.pitch ∧
      entry3.volume = settings.base.volume ∧
      applyVoiceModulation text emotion i = .ok cfg ∧
      cfg.voice = settings.base.voice ∧ cfg.voice = "Microsoft David Desktop" ∧
      ((∀ n, i = some n → n < 1 ∨ 5 < n) →
        cfg.rate = settings.base.rate ∧ cfg.pitch = settings.base.pitch ∧
          cfg.volume = settings.base.volume) := by
  obtain ⟨settings, entry3, modify, hs, h3, hm⟩ := recognised_lookups emotion hemo
  obtain ⟨entry, he⟩ := intensityEntry_isSome settings (i.getD 3) entry3 h3
  obtain ⟨hr, hp, hv, hvoice⟩ := level3_eq_base emotion settings entry3 hs h3
  refine ⟨settings, entry3, _, hs, h3, hr, hp, hv,
    applyVoiceModulation_eq text emotion i settings modify entry hs hm he, rfl, hvoice, ?_⟩
  intro hi
  have he3 : intensityEntry settings (i.getD 3) = some entry3 := by
    cases i with
    | none => exact intensityEntry_three settings entry3 h3
    | some n =>
      show intensityEntry settings n = some entry3
      rw [intensityEntry_outside emotion settings hemo hs n (hi n rfl), h3]
  rw [he3] at he
  cases he
  exact ⟨hr, hp, hv⟩

/-- C30 at `{text: "I am tired", emotion: "sleepy", intensity: 0}`. -/
theorem level3_is_base_profile_witness :
    ∃ settings entry3 cfg,
      voiceSettings.lookup "sleepy" = some settings ∧
      settings.intensity.lookup 3 = some entry3 ∧
      entry3.rate = settings.base.rate ∧ entry3.pitch = settings.base.pitch ∧
      entry3.volume = settings.base.volume ∧
      applyVoiceModulation "I am tired" "sleepy" (some 0) = .ok cfg ∧
      cfg.voice = settings.base.voice ∧ cfg.voice = "Microsoft David Desktop" ∧
      ((∀ n, some (0 : Int) = some n → n < 1 ∨ 5 < n) →
        cfg.rate = settings.base.rate ∧ cfg.pitch = settings.base.pitch ∧
          cfg.volume = settings.base.volume) :=
  level3_is_base_profile "I am tired" "sleepy" (some 0)
    ((mem_recognisedEmotions _).2 (by simp))

/-! ## Client and server together, with server speech disabled -/

/-- With server speech disabled the server answers a request with one error
event, or with the configuration event and the result event of that request. -/
theorem generateVoice_disabled_cases (say : SayEngine) (data : GenerationRequest) :
    (∃ message, generateVoice true say data = [.error message]) ∨
    ∃ config result, generateVoice true say data =
        [.voiceConfig config, .voiceGenerated result] ∧ Resolved config result := by
  rcases generateVoice_cases true say data with
    ⟨_, h⟩ | ⟨t, e, _, _, ⟨_, _, h⟩ | ⟨cfg, hcfg, ⟨err, hsp, _⟩ | ⟨_, h⟩⟩⟩
  · exact Or.inl ⟨_, h⟩
  · exact Or.inl ⟨_, h⟩
  · rw [speakWithEmotion_ok true say cfg e (Or.inl rfl)] at hsp
    cases hsp
  · refine Or.inr ⟨cfg, _, h, rfl, ?_⟩
    show applyVoiceModulation t e (some (data.intensity.getD 3)) = .ok cfg
    rw [applyVoiceModulation_getD]
    exact hcfg

/-- The client's `generateVoice` either sends nothing and changes nothing, or
sends one request from an idle client, which becomes a processing one. -/
theorem client_generateVoice_shape (c : ClientState) :
    (sentRequests (Client.generateVoice c).2 = [] ∧ (Client.generateVoice c).1 = c) ∨
    (∃ request, sentRequests (Client.generateVoice c).2 = [request] ∧
      c.isProcessing = false ∧
      (Client.generateVoice c).1 = Client.setProcessingState c true) := by
  unfold Client.generateVoice
  by_cases h1 : trim c.textInput = ""
  · left
    simp [h1, sentRequests]
  · cases h2 : c.isConnected <;> cases h3 : c.isProcessing
    · left
      simp [h1, h2, sentRequests]
    · left
      simp [h1, h2, sentRequests]
    · right
      simp [h1, h2, h3, sentRequests]
    · left
      simp [h1, h2, h3, sentRequests]

/-- What the invariant needs to know of a client handler that may send: it
sends nothing and keeps `isProcessing` and the stored configuration, or it
sends one request from an idle client and sets `isProcessing`. -/
theorem sending_handlers_shape (c : ClientState) :
    (∀ r, r = Client.clickGenerate c ∨ r = Client.keydownCtrlEnter c ∨
        r = Client.playAgain c →
      (sentRequests r.2 = [] ∧ r.1.isProcessing = c.isProcessing ∧
        r.1.lastVoiceConfig = c.lastVoiceConfig) ∨
      (∃ request, sentRequests r.2 = [request] ∧ c.isProcessing = false ∧
        r.1.isProcessing = true ∧ r.1.lastVoiceConfig = c.lastVoiceConfig)) := by
  have hgen : ∀ t : ClientState,
      (sentRequests (Client.generateVoice t).2 = [] ∧
        (Client.generateVoice t).1.isProcessing = t.isProcessing ∧
        (Client.generateVoice t).1.lastVoiceConfig = t.lastVoiceConfig) ∨
      (∃ request, sentRequests (Client.generateVoice t).2 = [request] ∧
        t.isProcessing = false ∧ (Client.generateVoice t).1.isProcessing = true ∧
        (Client.generateVoice t).1.lastVoiceConfig = t.lastVoiceConfig) := by
    intro t
    rcases client_generateVoice_shape t with ⟨h1, h2⟩ | ⟨request, h1, h2, h3⟩
    · left
      rw [h2]
      exact ⟨h1, rfl, rfl⟩
    · right
      rw [h3]
      exact ⟨request, h1, h2, rfl, rfl⟩
  intro r hr
  rcases hr with rfl | rfl | rfl
  · unfold Client.clickGenerate
    cases hb : c.generateBtnDisabled
    · simpa using hgen c
    · left
      simp [sentRequests]
  · exact hgen c
  · unfold Client.playAgain
    by_cases ho : c.originalText = ""
    · left
      simp [ho, sentRequests]
    · simp only [ho, if_false]
      split
      · left
        simp [sentRequests]
      · exact hgen { c with textInput := c.originalText }

/-- The invariant only looks at the pending events, `isProcessing` and the
stored configuration. -/
theorem coherent_of_same (sys next : System) (h : sys.Coherent)
    (hp : next.pending = sys.pending)
    (hproc : next.client.isProcessing = sys.client.isProcessing)
    (hlast : next.client.lastVoiceConfig = sys.client.lastVoiceConfig) :
    next.Coherent := by
  unfold System.Coherent at h ⊢
  rw [hp, hproc, hlast]
  exact h

/-- A client handler that may send keeps the invariant: it can only send when
nothing is pending, and the server's answer is then all that is pending. -/
theorem served_coherent (say : SayEngine) (sys : System)
    (r : ClientState × List ClientEffect) (h : sys.Coherent)
    (hr : (sentRequests r.2 = [] ∧ r.1.isProcessing = sys.client.isProcessing ∧
        r.1.lastVoiceConfig = sys.client.lastVoiceConfig) ∨
      (∃ request, sentRequests r.2 = [request] ∧ sys.client.isProcessing = false ∧
        r.1.isProcessing = true ∧ r.1.lastVoiceConfig = sys.client.lastVoiceConfig)) :
    (System.served true say sys r).1.Coherent := by
  rcases hr with ⟨hsent, hproc, hlast⟩ | ⟨request, hsent, hidle, hproc, _⟩
  · apply coherent_of_same sys _ h
    · show sys.pending ++ (sentRequests r.2).flatMap (generateVoice true say) = sys.pending
      rw [hsent]
      simp
    · exact hproc
    · exact hlast
  · have hnone : sys.pending = [] := by
      by_contra hne
      have := h.1 hne
      rw [hidle] at this
      cases this
    have hpend : (System.served true say sys r).1.pending = generateVoice true say request := by
      show sys.pending ++ (sentRequests r.2).flatMap (generateVoice true say) = _
      rw [hsent, hnone]
      simp
    unfold System.Coherent
    rw [hpend]
    refine ⟨fun _ => hproc, ?_⟩
    rcases generateVoice_disabled_cases say request with ⟨m, hm⟩ | ⟨cfg, res, hm, hres⟩
    · exact Or.inr (Or.inl ⟨m, hm⟩)
    · exact Or.inr (Or.inr (Or.inl ⟨cfg, res, hm, hres⟩))

/-- The `voiceGenerated` handler speaks only the stored configuration. -/
theorem spoken_on_result (c : ClientState) (result : GenerationResult)
    (spoken : ReceivedConfig)
    (h : spoken ∈ spokenConfigs (Client.onVoiceGenerated c result).2) :
    c.lastVoiceConfig = some spoken ∧ c.serverTTSDisabled = true := by
  unfold Client.onVoiceGenerated Client.handleVoiceGenerated Client.setProcessingState at h
  cases hs : result.success <;> cases hd : c.serverTTSDisabled <;>
    cases hl : c.lastVoiceConfig <;> simp [hs, hd, hl, spokenConfigs] at h
  · exact ⟨congrArg some h.symm, rfl⟩
  · exact ⟨congrArg some h.symm, rfl⟩

/-- Every step keeps the invariant. -/
theorem step_coherent (say : SayEngine) (sys : System) (action : Action)
    (h : sys.Coherent) : (System.step true say sys action).1.Coherent := by
  cases action with
  | connect => exact coherent_of_same sys _ h rfl rfl rfl
  | disconnect => exact coherent_of_same sys _ h rfl rfl rfl
  | configFetched => exact coherent_of_same sys _ h rfl rfl rfl
  | typeText text =>
    refine coherent_of_same sys (System.step true say sys (.typeText text)).1 h rfl ?_ ?_
    · show (Client.typeText sys.client text).isProcessing = sys.client.isProcessing
      unfold Client.typeText Client.handleTextInput
      dsimp only
      split <;> rfl
    · show (Client.typeText sys.client text).lastVoiceConfig = sys.client.lastVoiceConfig
      unfold Client.typeText Client.handleTextInput
      dsimp only
      split <;> rfl
  | selectEmotion emotion => exact coherent_of_same sys _ h rfl rfl rfl
  | setIntensity level => exact coherent_of_same sys _ h rfl rfl rfl
  | clickGenerate =>
    exact served_coherent say sys _ h
      (sending_handlers_shape sys.client _ (Or.inl rfl))
  | keydownCtrlEnter =>
    exact served_coherent say sys _ h
      (sending_handlers_shape sys.client _ (Or.inr (Or.inl rfl)))
  | playAgain =>
    exact served_coherent say sys _ h
      (sending_handlers_shape sys.client _ (Or.inr (Or.inr rfl)))
  | deliver =>
    obtain ⟨hproc, hshape⟩ := h
    rcases hshape with hp | ⟨m, hp⟩ | ⟨cfg, res, hp, hres⟩ | ⟨cfg, res, hp, hlast, hres⟩
    · have hstep : System.step true say sys .deliver = (sys, []) := by
        unfold System.step
        rw [hp]
      rw [hstep]
      exact ⟨hproc, Or.inl hp⟩
    · have hstep : (System.step true say sys .deliver).1.pending = [] := by
        unfold System.step
        rw [hp]
      exact ⟨fun hne => absurd hstep hne, Or.inl hstep⟩
    · have hbusy : sys.client.isProcessing = true := hproc (by rw [hp]; simp)
      have hstep : (System.step true say sys .deliver).1 =
          { client := (Client.onVoiceConfig sys.client cfg.toReceived).1
            pending := [.voiceGenerated res] } := by
        unfold System.step
        rw [hp]
        rfl
      rw [hstep]
      exact ⟨fun _ => hbusy, Or.inr (Or.inr (Or.inr ⟨cfg, res, rfl, rfl, hres⟩))⟩
    · have hstep : (System.step true say sys .deliver).1.pending = [] := by
        unfold System.step
        rw [hp]
      exact ⟨fun hne => absurd hstep hne, Or.inl hstep⟩

/-- Every system reached from the initial one satisfies the invariant. -/
theorem after_coherent (say : SayEngine) (actions : List Action) :
    (System.after true say actions).Coherent := by
  have hfold : ∀ (l : List Action) (sys : System), sys.Coherent →
      (l.foldl (fun s a => (System.step true say s a).1) sys).Coherent := by
    intro l
    induction l with
    | nil => intro sys h; exact h
    | cons a rest ih =>
      intro sys h
      exact ih _ (step_coherent say sys a h)
  exact hfold actions System.initial ⟨fun hne => absurd rfl hne, Or.inl rfl⟩

/-- C27: with server speech disabled, after every sequence of transport events,
user actions (typing, choosing an emotion or intensity, button, shortcut, play
again) and deliveries of the server's events in emission order from the initial
client, whenever the client receives a result event and speaks locally, the
configuration it speaks is the one the resolver returned for that same request:
its text is the result's `modifiedText`. -/
theorem spoken_configuration_matches_result (say : SayEngine) (actions : List Action)
    (result : GenerationResult) (rest : List Event) (spoken : ReceivedConfig)
    (hpending : (System.after true say actions).pending = .voiceGenerated result :: rest)
    (hspoken : spoken ∈ spokenConfigs
      (System.step true say (System.after true say actions) .deliver).2) :
    spoken.text = result.modifiedText ∧
    ∃ cfg, applyVoiceModulation result.originalText result.emotion
        (some result.intensity) = .ok cfg ∧
      spoken = cfg.toReceived := by
  obtain ⟨_, hshape⟩ := after_coherent say actions
  have heff : (System.step true say (System.after true say actions) .deliver).2 =
      (Client.onVoiceGenerated (System.after true say actions).client result).2 := by
    unfold System.step
    rw [hpending]
    rfl
  rw [heff] at hspoken
  obtain ⟨hlast2, _⟩ := spoken_on_result _ result spoken hspoken
  rw [hpending] at hshape
  rcases hshape with hp | ⟨m, hp⟩ | ⟨cfg, res, hp, _⟩ | ⟨cfg, res, hp, hlast, hres⟩
  · cases hp
  · cases hp
  · cases hp
  · cases hp
    rw [hlast] at hlast2
    cases hlast2
    exact ⟨hres.1.symm, cfg, hres.2, rfl⟩

/-- C27 at the run connect, configuration fetched, `Hello world` typed,
Ctrl/Cmd+Enter, configuration event delivered: the result event is pending, and
on its delivery the client speaks the configuration of that request. -/
theorem spoken_configuration_matches_result_witness :
    (System.after true (fun _ _ _ => none)
        [.connect, .configFetched, .typeText "Hello world", .keydownCtrlEnter,
          .deliver]).pending =
      [ .voiceGenerated
          { success := true, emotion := "happy", intensity := 3,
            originalText := "Hello world", modifiedText := "Hello world!" } ] ∧
    ({ text := "Hello world!", rate := some 1.2, pitch := some 1.3,
       volume := some 1.0 } : ReceivedConfig) ∈
      spokenConfigs
        (System.step true (fun _ _ _ => none)
          (System.after true (fun _ _ _ => none)
            [.connect, .configFetched, .typeText "Hello world", .keydownCtrlEnter,
              .deliver]) .deliver).2 ∧
    (({ text := "Hello world!", rate := some 1.2, pitch := some 1.3,
        volume := some 1.0 } : ReceivedConfig).text =
        ({ success := true, emotion := "happy", intensity := 3,
           originalText := "Hello world",
           modifiedText := "Hello world!" } : GenerationResult).modifiedText ∧
      ∃ cfg, applyVoiceModulation "Hello world" "happy" (some 3) = .ok cfg ∧
        ({ text := "Hello world!", rate := some 1.2, pitch := some 1.3,
           volume := some 1.0 } : ReceivedConfig) = cfg.toReceived) :=
  ⟨rfl, List.mem_singleton.2 rfl,
    spoken_configuration_matches_result (fun _ _ _ => none)
      [.connect, .configFetched, .typeText "Hello world", .keydownCtrlEnter, .deliver]
      { success := true, emotion := "happy", intensity := 3,
        originalText := "Hello world", modifiedText := "Hello world!" }
      []
      { text := "Hello world!", rate := some 1.2, pitch := some 1.3, volume := some 1.0 }
      rfl (List.mem_singleton.2 rfl)⟩

end TextEmotions
